import Mathlib

/-!
# TrickArt: a model of the export engine and the projector controls

The development embeds `src/js/export.js`, the state-changing functions of
`src/js/main.js` and the projector-control functions of `src/js/ui.js`.

Conventions of the embedding.

* A JavaScript number is a finite double, held as the rational it is.
  `toDouble` rounds a rational to the nearest double (53 bits, ties to even,
  gradual underflow); a result beyond the largest double, `NaN` and the
  infinities are outside the model.
* `jsDiv` and `jsMul` are `/` and `*` with that rounding. They stand where the
  source rounds or prints what it computed: under `Math.round` in `export.js`
  and under `toFixed` in `ui.js`. The sizes that are only handed to three.js,
  the `* 0.1` of the paper geometry and of the capture camera, are kept as the
  exact product, the same on both sides.
* The text of an input field or of a literal is a decimal numeral, represented
  by its value; `parseFloat` and the conversion done by `/` and `*` give the
  double nearest to it.
* The objects of three.js that the code mutates are records; every renderer
  method appends itself to `Renderer.calls`, so the order of the calls of a run
  can be read back.
* What the host (WebGL, DOM) decides, namely which external call throws, is a
  parameter `Host` of the run. A `throw` leaves the state as it is at that
  statement: the source has no `try`.
-/

namespace TrickArt

/-! ## Numbers -/

/-- `Math.round`: the nearest integer, a tie going to the larger one. -/
def mathRound (x : ℚ) : ℤ := ⌊x + 1 / 2⌋

/-- `INCH_TO_CM` of `export.js`. -/
def INCH_TO_CM : ℚ := 254 / 100

/-- `CM_TO_UNIT_SCALE` of `main.js` and `ui.js`: one scene unit is 10 cm. -/
def CM_TO_UNIT_SCALE : ℚ := 1 / 10

/-- The integer nearest to a rational, a tie going to the even one. -/
def roundHalfEven (q : ℚ) : ℤ :=
  if q - ⌊q⌋ < 1 / 2 then ⌊q⌋
  else if 1 / 2 < q - ⌊q⌋ then ⌊q⌋ + 1
  else if ⌊q⌋ % 2 = 0 then ⌊q⌋ else ⌊q⌋ + 1

/-- The weight of the last bit of the doubles around `q`: `2 ^ (e - 52)` where
`2 ^ e ≤ |q| < 2 ^ (e + 1)`, and `2 ^ -1074` below `2 ^ -1022`. -/
def ulp (q : ℚ) : ℚ := (2 : ℚ) ^ (max (Int.log 2 |q|) (-1022) - 52)

/-- The double nearest to a rational (round to nearest, ties to even). Beyond
the largest double JavaScript gives an infinity; that range is outside the
model. -/
def toDouble (q : ℚ) : ℚ := roundHalfEven (q / ulp q) * ulp q

/-- `a / b` of JavaScript: both operands as doubles, the quotient rounded. The
divisors of the modelled code are the non-zero constants 2.54, 0.1, 180 and
`Math.PI`. -/
def jsDiv (a b : ℚ) : ℚ := toDouble (toDouble a / toDouble b)

/-- `a * b` of JavaScript: both operands as doubles, the product rounded. -/
def jsMul (a b : ℚ) : ℚ := toDouble (toDouble a * toDouble b)

/-- `parseFloat(text)` for a numeral: the double nearest to it. -/
def parseFloat (text : ℚ) : ℚ := toDouble text

/-! ## The three.js objects the code touches -/

/-- `THREE.WebGLRenderTarget(width, height, …)`. -/
structure WebGLRenderTarget where
  width : ℤ
  height : ℤ
  deriving DecidableEq, Repr

/-- `THREE.OrthographicCamera(left, right, top, bottom, near, far)` and its
`position.z`. -/
structure OrthographicCamera where
  left : ℚ
  right : ℚ
  top : ℚ
  bottom : ℚ
  near : ℚ
  far : ℚ
  positionZ : ℚ
  deriving DecidableEq, Repr

/-- `THREE.PlaneGeometry(width, height, widthSegments, heightSegments)`: a
rectangle in the XY plane centred on the origin. -/
structure PlaneGeometry where
  width : ℚ
  height : ℚ
  widthSegments : ℕ
  heightSegments : ℕ
  deriving DecidableEq, Repr

/-- Smallest x of the vertices of a plane geometry (`-width / 2`). -/
def PlaneGeometry.xMin (g : PlaneGeometry) : ℚ := -(g.width / 2)

/-- Largest x of the vertices of a plane geometry. -/
def PlaneGeometry.xMax (g : PlaneGeometry) : ℚ := g.width / 2

/-- Smallest y of the vertices of a plane geometry. -/
def PlaneGeometry.yMin (g : PlaneGeometry) : ℚ := -(g.height / 2)

/-- Largest y of the vertices of a plane geometry. -/
def PlaneGeometry.yMax (g : PlaneGeometry) : ℚ := g.height / 2

/-- A decoded image: `texture.image.width`, `texture.image.height`. -/
structure Texture where
  imageWidth : ℕ
  imageHeight : ℕ
  deriving DecidableEq, Repr

/-- A call of a method of the renderer that draws, binds or reads. -/
inductive GLCall where
  | setRenderTarget (target : Option WebGLRenderTarget)
  | setClearColor (color : ℕ) (alpha : ℚ)
  | clear
  | render (geometry : PlaneGeometry) (isExporting : Bool) (camera : OrthographicCamera)
  | readRenderTargetPixels (target : WebGLRenderTarget) (x y width height : ℤ)
  deriving DecidableEq, Repr

/-- `THREE.WebGLRenderer`: the bound render target (`none` is the canvas), the
clear colour and its alpha, and the calls made so far, oldest first. -/
structure Renderer where
  renderTarget : Option WebGLRenderTarget
  clearColor : ℕ
  clearAlpha : ℚ
  calls : List GLCall
  deriving DecidableEq, Repr

/-- `renderer.getRenderTarget()`. -/
def Renderer.getRenderTarget (r : Renderer) : Option WebGLRenderTarget := r.renderTarget

/-- `renderer.setRenderTarget(target)`. -/
def Renderer.setRenderTarget (r : Renderer) (target : Option WebGLRenderTarget) : Renderer :=
  { r with renderTarget := target, calls := r.calls ++ [GLCall.setRenderTarget target] }

/-- `renderer.setClearColor(color, alpha)`. -/
def Renderer.setClearColor (r : Renderer) (color : ℕ) (alpha : ℚ) : Renderer :=
  { r with clearColor := color, clearAlpha := alpha,
           calls := r.calls ++ [GLCall.setClearColor color alpha] }

/-- `renderer.clear()`. -/
def Renderer.clear (r : Renderer) : Renderer :=
  { r with calls := r.calls ++ [GLCall.clear] }

/-- `renderer.render(scene, camera)` for a scene holding one mesh of the given
geometry drawn with the projection material. -/
def Renderer.render (r : Renderer) (geometry : PlaneGeometry) (isExporting : Bool)
    (camera : OrthographicCamera) : Renderer :=
  { r with calls := r.calls ++ [GLCall.render geometry isExporting camera] }

/-- `renderer.readRenderTargetPixels(target, x, y, width, height, buffer)`. -/
def Renderer.readRenderTargetPixels (r : Renderer) (target : WebGLRenderTarget)
    (x y width height : ℤ) : Renderer :=
  { r with calls := r.calls ++ [GLCall.readRenderTargetPixels target x y width height] }

/-- The uniforms of `paperMaterial` that the modelled functions write. -/
structure ShaderMaterial where
  projectionTexture : Option Texture
  u_isExporting : Bool
  needsUpdate : Bool
  deriving DecidableEq, Repr

/-- What the host decides during a run: whether `renderer.render` throws,
whether the pixel read-back (`new Uint8Array`, `readRenderTargetPixels`) throws,
and whether the canvas/PNG/download part throws. -/
structure Host where
  renderThrows : Bool
  readbackThrows : Bool
  encodeThrows : Bool
  deriving DecidableEq, Repr

/-- A host on which no external call throws. -/
def Host.ok : Host := ⟨false, false, false⟩

/-! ## `export.js` -/

/-- The statement at which a run of `exportHighResImage` stopped by a throw. -/
inductive ExportStage where
  | render
  | readback
  | encode
  deriving DecidableEq, Repr

/-- How a run of `exportHighResImage` ended: it ran to its last statement and
clicked the download link for a canvas of the given size, or it threw. -/
inductive ExportOutcome where
  | completed (download : String) (canvasWidth canvasHeight : ℤ)
  | threw (stage : ExportStage)
  deriving DecidableEq, Repr

/-- The objects of a run of `exportHighResImage` when it ends: the renderer and
the material it was given, the render target it allocated, the capture camera it
built, whether the target was disposed, and the outcome. -/
structure ExportRun where
  renderer : Renderer
  paperMaterial : ShaderMaterial
  renderTarget : WebGLRenderTarget
  exportCamera : OrthographicCamera
  disposed : Bool
  outcome : ExportOutcome
  deriving DecidableEq, Repr

/-- `exportHighResImage(options)` of `export.js`, statement by statement. -/
def exportHighResImage (host : Host) (renderer : Renderer) (paperMaterial : ShaderMaterial)
    (geometry : PlaneGeometry) (paperWidthCM paperHeightCM dpi : ℚ) : ExportRun :=
  -- 1. output resolution
  let outputWidth := mathRound (jsMul (jsDiv paperWidthCM INCH_TO_CM) dpi)
  let outputHeight := mathRound (jsMul (jsDiv paperHeightCM INCH_TO_CM) dpi)
  -- 2. the offscreen target
  let renderTarget : WebGLRenderTarget := ⟨outputWidth, outputHeight⟩
  -- 3. draw into it
  let paperMaterial := { paperMaterial with u_isExporting := true }
  -- (`aspect`, line 48, is computed and never used)
  let paperWidthUnits := paperWidthCM * (1 / 10)
  let paperHeightUnits := paperHeightCM * (1 / 10)
  let exportCamera : OrthographicCamera :=
    { left := -paperWidthUnits / 2, right := paperWidthUnits / 2,
      top := paperHeightUnits / 2, bottom := -paperHeightUnits / 2,
      near := 1 / 10, far := 10, positionZ := 1 }
  let currentRenderTarget := renderer.getRenderTarget
  let renderer := renderer.setRenderTarget (some renderTarget)
  let renderer := renderer.setClearColor 0xffffff 1
  let renderer := renderer.clear
  if host.renderThrows then
    ⟨renderer, paperMaterial, renderTarget, exportCamera, false, .threw .render⟩
  else
  let renderer := renderer.render geometry paperMaterial.u_isExporting exportCamera
  -- post-processing
  let paperMaterial := { paperMaterial with u_isExporting := false }
  let renderer := renderer.setRenderTarget currentRenderTarget
  let renderer := renderer.setClearColor 0x282c34 1
  -- 4. read the pixels back
  if host.readbackThrows then
    ⟨renderer, paperMaterial, renderTarget, exportCamera, false, .threw .readback⟩
  else
  let renderer := renderer.readRenderTargetPixels renderTarget 0 0 outputWidth outputHeight
  -- canvas, PNG, 5. download
  if host.encodeThrows then
    ⟨renderer, paperMaterial, renderTarget, exportCamera, false, .threw .encode⟩
  else
  ⟨renderer, paperMaterial, renderTarget, exportCamera, true,
    .completed "anamorphosis_export.png" outputWidth outputHeight⟩

/-! ## `main.js`: the application state -/

/-- A 3-vector of numbers (`THREE.Vector3`, or the x, y, z of a `THREE.Euler`). -/
structure Vec3 where
  x : ℚ
  y : ℚ
  z : ℚ
  deriving DecidableEq, Repr

/-- A paper mesh (`THREE.Mesh`): `id` tells two objects apart, as object
identity does in the source. -/
structure Mesh where
  id : ℕ
  geometry : PlaneGeometry
  visible : Bool
  deriving DecidableEq, Repr

/-- The object `projectionHelper`: its transform, its geometry and the map of
its material. Its `id` is `helperId`. -/
structure ProjectionHelper where
  position : Vec3
  rotation : Vec3
  scale : Vec3
  geometry : PlaneGeometry
  map : Option Texture
  deriving DecidableEq, Repr

/-- Identity of the object `projectionHelper`. -/
def helperId : ℕ := 0

/-- The input elements the modelled code reads or writes, by the name they have
in `uiElements` (`exportDpi` is the element `export-dpi`). The three sliders of
a group are the components of one vector, and so are the three number inputs. -/
structure Dom where
  paperWidth : ℚ
  paperHeight : ℚ
  exportDpi : ℚ
  transformTarget : String
  projPos : Vec3
  projPosNum : Vec3
  projRot : Vec3
  projRotNum : Vec3
  projScale : Vec3
  projScaleNum : Vec3
  deriving DecidableEq, Repr

/-- What a handler shows to the user or leaves in the console. -/
inductive Notice where
  | alert (message : String)
  | download (file : String) (width height : ℤ)
  | uncaught (what : String)
  deriving DecidableEq, Repr

/-- The module state of `main.js` together with the page. `sceneChildren` lists
the ids of the paper meshes that are children of `scene`; `transformControls`
is the id of the object the gizmo is attached to; `bakedMap` is
`bakedMaterial.map`. -/
structure App where
  renderer : Renderer
  paperMaterial : ShaderMaterial
  bakedMap : Option WebGLRenderTarget
  sceneChildren : List ℕ
  foldedObject : Option Mesh
  flatPaperObject : Option Mesh
  projectionHelper : ProjectionHelper
  transformControls : Option ℕ
  isBakeMode : Bool
  projectionTexture : Option Texture
  dom : Dom
  notices : List Notice
  nextId : ℕ
  deriving DecidableEq, Repr

/-- The message of both `alert` calls of `main.js`. -/
def noImageMessage : String := "先に投影する画像ファイルを読み込んでください。"

/-- `scene.remove(object)`. -/
def sceneRemove (children : List ℕ) (id : ℕ) : List ℕ := children.erase id

/-- `scene.add(object)`: an object that is already a child is moved to the end. -/
def sceneAdd (children : List ℕ) (id : ℕ) : List ℕ := children.erase id ++ [id]

/-- `updatePaperSize(widthCm, heightCm)` of `main.js`. -/
def updatePaperSize (s : App) (widthCm heightCm : ℚ) : App :=
  let children := match s.foldedObject with
    | some old => sceneRemove s.sceneChildren old.id
    | none => s.sceneChildren
  let width := widthCm * CM_TO_UNIT_SCALE
  let height := heightCm * CM_TO_UNIT_SCALE
  let paperGeometry : PlaneGeometry := ⟨width, height, 32, 32⟩
  let foldedObject : Mesh := ⟨s.nextId, paperGeometry, true⟩
  let children := sceneAdd children foldedObject.id
  let children := match s.flatPaperObject with
    | some old => sceneRemove children old.id
    | none => children
  let flatPaperObject : Mesh := ⟨s.nextId + 1, paperGeometry, false⟩
  { s with sceneChildren := children, foldedObject := some foldedObject,
           flatPaperObject := some flatPaperObject, nextId := s.nextId + 2 }

/-- The callback of `loader.load` in `loadTexture`, run with the decoded
texture. -/
def loadTexture (s : App) (texture : Texture) : App :=
  { s with projectionTexture := some texture,
           paperMaterial := { s.paperMaterial with projectionTexture := some texture },
           projectionHelper := { s.projectionHelper with
             map := some texture,
             geometry := ⟨(texture.imageWidth : ℚ) / (texture.imageHeight : ℚ), 1, 1, 1⟩ } }

/-- `bakeProjectedTexture()` of `main.js`; the flag tells whether it returned
(`true`) or threw. -/
def bakeProjectedTexture (host : Host) (s : App) : App × Bool :=
  let renderTarget : WebGLRenderTarget := ⟨2048, 2048⟩
  let s := { s with paperMaterial := { s.paperMaterial with u_isExporting := true } }
  let bakeCamera : OrthographicCamera := ⟨-1 / 2, 1 / 2, 1 / 2, -1 / 2, 1 / 10, 10, 1⟩
  match s.flatPaperObject with
  | none => ({ s with notices := s.notices ++ [.uncaught "TypeError"] }, false)
  | some flat =>
    let s := { s with renderer := s.renderer.setRenderTarget (some renderTarget) }
    if host.renderThrows then
      ({ s with notices := s.notices ++ [.uncaught "render"] }, false)
    else
    let s := { s with renderer :=
      s.renderer.render flat.geometry s.paperMaterial.u_isExporting bakeCamera }
    let s := { s with renderer := s.renderer.setRenderTarget none }
    let s := { s with paperMaterial := { s.paperMaterial with u_isExporting := false } }
    ({ s with bakedMap := some renderTarget }, true)

/-- `toggleBakeMode()` of `main.js`. Reading `visible` of a paper mesh that does
not exist yet is a `TypeError`, which ends the handler. -/
def toggleBakeMode (host : Host) (s : App) : App :=
  let s := { s with isBakeMode := !s.isBakeMode }
  if s.isBakeMode then
    if s.projectionTexture.isNone then
      { s with notices := s.notices ++ [.alert noImageMessage], isBakeMode := false }
    else
      match bakeProjectedTexture host s with
      | (s, false) => s
      | (s, true) =>
        match s.foldedObject with
        | none => { s with notices := s.notices ++ [.uncaught "TypeError"] }
        | some folded =>
          let s := { s with foldedObject := some { folded with visible := false } }
          match s.flatPaperObject with
          | none => { s with notices := s.notices ++ [.uncaught "TypeError"] }
          | some flat =>
            { s with sceneChildren := sceneAdd s.sceneChildren flat.id,
                     flatPaperObject := some { flat with visible := true },
                     transformControls := none }
  else
    match s.foldedObject with
    | none => { s with notices := s.notices ++ [.uncaught "TypeError"] }
    | some folded =>
      let s := { s with foldedObject := some { folded with visible := true } }
      match s.flatPaperObject with
      | none => { s with notices := s.notices ++ [.uncaught "TypeError"] }
      | some flat =>
        let s := { s with flatPaperObject := some { flat with visible := false },
                          sceneChildren := sceneRemove s.sceneChildren flat.id }
        let s := if s.dom.transformTarget = "projection" then
            { s with transformControls := some helperId }
          else
            { s with transformControls := some folded.id }
        { s with paperMaterial := { s.paperMaterial with needsUpdate := true } }

/-- The notice a finished run of `exportHighResImage` leaves. -/
def ExportOutcome.notice : ExportOutcome → Notice
  | .completed file w h => .download file w h
  | .threw .render => .uncaught "render"
  | .threw .readback => .uncaught "readback"
  | .threw .encode => .uncaught "encode"

/-- The handle `exportImage` of `getAppHandles()` in `main.js`. -/
def exportImage (host : Host) (s : App) : App :=
  if s.projectionTexture.isNone then
    { s with notices := s.notices ++ [.alert noImageMessage] }
  else
    match s.flatPaperObject with
    | none => { s with notices := s.notices ++ [.uncaught "TypeError"] }
    | some flat =>
      let run := exportHighResImage host s.renderer s.paperMaterial flat.geometry
        s.dom.paperWidth s.dom.paperHeight s.dom.exportDpi
      { s with renderer := run.renderer, paperMaterial := run.paperMaterial,
               notices := s.notices ++ [run.outcome.notice] }

/-- What the ray cast of `onClick` found. -/
inductive ClickTarget where
  | uiPanel
  | helper
  | paper
  | background
  deriving DecidableEq, Repr

/-- `onClick(event)` of `main.js`, given what the click hit. -/
def onClick (s : App) (hit : ClickTarget) : App :=
  match hit with
  | .uiPanel => s
  | .helper =>
    { s with transformControls := some helperId,
             dom := { s.dom with transformTarget := "projection" } }
  | .paper =>
    { s with transformControls := s.foldedObject.map (·.id),
             dom := { s.dom with transformTarget := "paper" } }
  | .background => { s with transformControls := none }

/-! ## `ui.js` -/

/-- `x.toFixed(digits)` read back as a number: the sign is split off and the
magnitude is rounded to the nearest multiple of `10 ^ -digits`, a tie going to
the larger one. -/
def toFixed (x : ℚ) (digits : ℕ) : ℚ :=
  if x < 0 then -(((⌊-x * 10 ^ digits + 1 / 2⌋ : ℤ) : ℚ) / 10 ^ digits)
  else ((⌊x * 10 ^ digits + 1 / 2⌋ : ℤ) : ℚ) / 10 ^ digits

/-- `Math.PI`, the double nearest to π, as the rational it is. -/
def MATH_PI : ℚ := 884279719003555 / 281474976710656

/-- `DEG2RAD` of `THREE.MathUtils`: `Math.PI / 180`. -/
def DEG2RAD : ℚ := jsDiv MATH_PI 180

/-- `RAD2DEG` of `THREE.MathUtils`: `180 / Math.PI`. -/
def RAD2DEG : ℚ := jsDiv 180 MATH_PI

/-- `THREE.MathUtils.degToRad`: `degrees * DEG2RAD`. -/
def degToRad (degrees : ℚ) : ℚ := jsMul degrees DEG2RAD

/-- `THREE.MathUtils.radToDeg`: `radians * RAD2DEG`. -/
def radToDeg (radians : ℚ) : ℚ := jsMul radians RAD2DEG

/-- `updateProjectionFromUI()` of `ui.js`: the sliders are read and applied to
the helper. -/
def updateProjectionFromUI (dom : Dom) (projectionHelper : ProjectionHelper) :
    ProjectionHelper :=
  let pos : Vec3 :=
    ⟨parseFloat dom.projPos.x, parseFloat dom.projPos.y, parseFloat dom.projPos.z⟩
  let rot : Vec3 :=
    ⟨parseFloat dom.projRot.x, parseFloat dom.projRot.y, parseFloat dom.projRot.z⟩
  let scale : Vec3 :=
    ⟨parseFloat dom.projScale.x, parseFloat dom.projScale.y, parseFloat dom.projScale.z⟩
  { projectionHelper with
    position := ⟨jsMul pos.x CM_TO_UNIT_SCALE, jsMul pos.y CM_TO_UNIT_SCALE,
      jsMul pos.z CM_TO_UNIT_SCALE⟩,
    rotation := ⟨degToRad rot.x, degToRad rot.y, degToRad rot.z⟩,
    scale := ⟨scale.x, scale.y, scale.z⟩ }

/-- `updateUIFromProjection(projectionHelper)` of `ui.js`: the sliders are
written from the helper, then every number input takes the value of its
slider. -/
def updateUIFromProjection (projectionHelper : ProjectionHelper) (dom : Dom) : Dom :=
  let pos := projectionHelper.position
  let dom := { dom with projPos :=
    ⟨toFixed (jsDiv pos.x CM_TO_UNIT_SCALE) 1, toFixed (jsDiv pos.y CM_TO_UNIT_SCALE) 1,
     toFixed (jsDiv pos.z CM_TO_UNIT_SCALE) 1⟩ }
  let rot := projectionHelper.rotation
  let dom := { dom with projRot :=
    ⟨toFixed (radToDeg rot.x) 0, toFixed (radToDeg rot.y) 0, toFixed (radToDeg rot.z) 0⟩ }
  let scale := projectionHelper.scale
  let dom := { dom with projScale :=
    ⟨toFixed scale.x 2, toFixed scale.y 2, toFixed scale.z 2⟩ }
  { dom with projPosNum := dom.projPos, projRotNum := dom.projRot,
             projScaleNum := dom.projScale }

/-- `updatePaper()` of `ui.js`. -/
def updatePaper (s : App) : App :=
  let width := s.dom.paperWidth
  let height := s.dom.paperHeight
  if width > 0 ∧ height > 0 then updatePaperSize s width height else s

/-- `switchTransformTarget()` of `ui.js`. -/
def switchTransformTarget (s : App) : App :=
  let targetValue := s.dom.transformTarget
  if targetValue = "projection" then
    { s with transformControls := some helperId }
  else if targetValue = "paper" then
    { s with transformControls := s.foldedObject.map (·.id) }
  else s

/-! ## The events of the page -/

/-- One of the three groups of projector controls. -/
inductive Group where
  | pos
  | rot
  | scale
  deriving DecidableEq, Repr

/-- An axis of a group of projector controls. -/
inductive Axis where
  | x
  | y
  | z
  deriving DecidableEq, Repr

/-- A vector with one component replaced. -/
def Vec3.set (v : Vec3) (axis : Axis) (value : ℚ) : Vec3 :=
  match axis with
  | .x => { v with x := value }
  | .y => { v with y := value }
  | .z => { v with z := value }

/-- The page with the slider of a group and axis set to a value. -/
def Dom.setSlider (dom : Dom) (g : Group) (axis : Axis) (value : ℚ) : Dom :=
  match g with
  | .pos => { dom with projPos := dom.projPos.set axis value }
  | .rot => { dom with projRot := dom.projRot.set axis value }
  | .scale => { dom with projScale := dom.projScale.set axis value }

/-- The page with the number input of a group and axis set to a value. -/
def Dom.setNumber (dom : Dom) (g : Group) (axis : Axis) (value : ℚ) : Dom :=
  match g with
  | .pos => { dom with projPosNum := dom.projPosNum.set axis value }
  | .rot => { dom with projRotNum := dom.projRotNum.set axis value }
  | .scale => { dom with projScaleNum := dom.projScaleNum.set axis value }

/-- An event a handler of `initUI` or `setupEventListeners` is registered for,
and the completion of an image load. `toggleBake` calls `toggleBakeMode`, which
no handler of the page calls. The handlers `onKeyDown`, `onWindowResize` and
`animate` write no field of `App` and have no event here. -/
inductive Action where
  | paperWidthChange (value : ℚ)
  | paperHeightChange (value : ℚ)
  | dpiEdit (value : ℚ)
  | imageLoaded (texture : Texture)
  | targetChange (value : String)
  | click (hit : ClickTarget)
  | exportClick (host : Host)
  | toggleBake (host : Host)
  | sliderInput (g : Group) (axis : Axis) (value : ℚ)
  | numberChange (g : Group) (axis : Axis) (value : ℚ)
  | helperDragged (position rotation scale : Vec3)

/-- The handlers that run on an event, in the order they were registered. -/
def step (s : App) : Action → App
  | .paperWidthChange v => updatePaper { s with dom := { s.dom with paperWidth := v } }
  | .paperHeightChange v => updatePaper { s with dom := { s.dom with paperHeight := v } }
  | .dpiEdit v => { s with dom := { s.dom with exportDpi := v } }
  | .imageLoaded texture => loadTexture s texture
  | .targetChange v => switchTransformTarget { s with dom := { s.dom with transformTarget := v } }
  | .click hit => onClick s hit
  | .exportClick host => exportImage host s
  | .toggleBake host => toggleBakeMode host s
  | .sliderInput g axis v =>
    let dom := s.dom.setSlider g axis v
    let helper := updateProjectionFromUI dom s.projectionHelper
    { s with dom := dom.setNumber g axis v, projectionHelper := helper }
  | .numberChange g axis v =>
    let dom := s.dom.setNumber g axis v
    let helper := updateProjectionFromUI dom s.projectionHelper
    { s with dom := dom.setSlider g axis v, projectionHelper := helper }
  | .helperDragged position rotation scale =>
    let helper := { s.projectionHelper with
      position := position, rotation := rotation, scale := scale }
    { s with projectionHelper := helper, dom := updateUIFromProjection helper s.dom }

/-- The state when `init()` has run on a page whose inputs hold `dom`: the
objects of `loadAssetsAndSetupScene`, a renderer with the clear colour of a
new `WebGLRenderer` (black, alpha 1), the paper of `updatePaperSize(40, 30)`
and the controls written by `initUI`. -/
def App.initial (dom : Dom) : App :=
  let helper : ProjectionHelper :=
    { position := ⟨0, 3, 0⟩, rotation := ⟨-MATH_PI / 4, 0, 0⟩, scale := ⟨1, 1, 1⟩,
      geometry := ⟨1, 1, 1, 1⟩, map := none }
  let s : App :=
    { renderer := ⟨none, 0x000000, 1, []⟩,
      paperMaterial := ⟨none, false, false⟩,
      bakedMap := none,
      sceneChildren := [],
      foldedObject := none,
      flatPaperObject := none,
      projectionHelper := helper,
      transformControls := some helperId,
      isBakeMode := false,
      projectionTexture := none,
      dom := dom,
      notices := [],
      nextId := 1 }
  let s := updatePaperSize s 40 30
  { s with dom := updateUIFromProjection s.projectionHelper s.dom }

/-- The state after a list of events, the first of the list first. -/
def run (s : App) (actions : List Action) : App := actions.foldl step s

/-- A state the page can be in: the one after some events, from the start. -/
def Reachable (s : App) : Prop := ∃ dom actions, s = run (App.initial dom) actions

/-! ## The projective sampler -/

/-- A homogeneous 4-vector. -/
structure Vec4 where
  x : ℚ
  y : ℚ
  z : ℚ
  w : ℚ
  deriving DecidableEq, Repr

/-- A 4×4 matrix by its rows. -/
structure Mat4 where
  r0 : Vec4
  r1 : Vec4
  r2 : Vec4
  r3 : Vec4
  deriving DecidableEq, Repr

/-- Dot product of two 4-vectors. -/
def Vec4.dot (a b : Vec4) : ℚ := a.x * b.x + a.y * b.y + a.z * b.z + a.w * b.w

/-- Matrix times column vector. -/
def Mat4.mulVec (m : Mat4) (v : Vec4) : Vec4 := ⟨m.r0.dot v, m.r1.dot v, m.r2.dot v, m.r3.dot v⟩

/-- An RGBA colour. -/
structure Color where
  r : ℚ
  g : ℚ
  b : ℚ
  a : ℚ
  deriving DecidableEq, Repr

/-- Fully transparent black. -/
def Color.transparent : Color := ⟨0, 0, 0, 0⟩

/-- Opaque white. -/
def Color.white : Color := ⟨1, 1, 1, 1⟩

/-- Modelled from the spec: the clip-space coordinate of the projective sampler,
whose shader `js/shaders/projection_fragment.glsl` is missing:
`clip = Proj × V × M × P_local`. -/
def clipCoord (proj view model : Mat4) (pLocal : Vec4) : Vec4 :=
  proj.mulVec (view.mulVec (model.mulVec pLocal))

/-- Modelled from the spec: the perspective divide of the missing shader, giving
the normalized device coordinate of the two image axes. A zero `w` is outside
what the spec describes. -/
def ndcCoord (clip : Vec4) : ℚ × ℚ := (clip.x / clip.w, clip.y / clip.w)

/-- Modelled from the spec: the map of the missing shader from NDC (-1..1) to
sample coordinates (0..1) on both axes. -/
def sampleCoord (ndc : ℚ × ℚ) : ℚ × ℚ := (ndc.1 * (1 / 2) + 1 / 2, ndc.2 * (1 / 2) + 1 / 2)

/-- Modelled from the spec: where the missing shader samples the source image
for a surface point, `none` when the mapped coordinate falls outside
[0,1]×[0,1] and the image is not sampled. -/
def sampleAt (proj view model : Mat4) (pLocal : Vec4) : Option (ℚ × ℚ) :=
  let uv := sampleCoord (ndcCoord (clipCoord proj view model pLocal))
  if 0 ≤ uv.1 ∧ uv.1 ≤ 1 ∧ 0 ≤ uv.2 ∧ uv.2 ≤ 1 then some uv else none

/-- Modelled from the spec: the background of the missing shader, transparent
in the interactive pass and opaque white in the export pass (the export-mode
flag affects background fill only). -/
def backgroundColor (isExporting : Bool) : Color :=
  if isExporting then Color.white else Color.transparent

/-- Modelled from the spec: the colour the missing shader outputs for a surface
point, the texel of the source image at the sample coordinate or the
background. -/
def projectiveSampler (image : ℚ × ℚ → Color) (isExporting : Bool)
    (proj view model : Mat4) (pLocal : Vec4) : Color :=
  match sampleAt proj view model pLocal with
  | some uv => image uv
  | none => backgroundColor isExporting

/-! ## Reading a run -/

/-- Whether a run of `exportHighResImage` ran to its last statement. -/
def ExportOutcome.isCompleted : ExportOutcome → Bool
  | .completed _ _ _ => true
  | .threw _ => false

/-- A page as `init()` may find it: 40 cm × 30 cm, 300 dpi, the projector
selected as the target of the gizmo, every projector control at 0. -/
def examplePage : Dom :=
  { paperWidth := 40, paperHeight := 30, exportDpi := 300, transformTarget := "projection",
    projPos := ⟨0, 0, 0⟩, projPosNum := ⟨0, 0, 0⟩, projRot := ⟨0, 0, 0⟩,
    projRotNum := ⟨0, 0, 0⟩, projScale := ⟨0, 0, 0⟩, projScaleNum := ⟨0, 0, 0⟩ }

/-- The page of `examplePage` with the sliders at (12.5, -30, 0) cm,
(-45, 90, 0) degrees and scale (1, 1.5, 2). -/
def slidersPage : Dom :=
  { examplePage with
    projPos := ⟨25 / 2, -30, 0⟩
    projRot := ⟨-45, 90, 0⟩
    projScale := ⟨1, 3 / 2, 2⟩ }

/-- The page of `examplePage` with 2000000000000001 in the x position slider. -/
def farPage : Dom := { examplePage with projPos := ⟨2000000000000001, 0, 0⟩ }

/-- A projection helper at (0, 3, 0), not rotated, of scale 1. -/
def restingHelper : ProjectionHelper := ⟨⟨0, 3, 0⟩, ⟨0, 0, 0⟩, ⟨1, 1, 1⟩, ⟨1, 1, 1, 1⟩, none⟩

/-- The renderer of `init()`: a new `WebGLRenderer` draws to the canvas and
clears to black with alpha 1. -/
def Renderer.initial : Renderer := ⟨none, 0x000000, 1, []⟩

/-- Whether a call of the renderer binds a target, draws or reads pixels; the
calls that set the clear colour or clear do not. -/
def GLCall.usesTarget : GLCall → Bool
  | .setRenderTarget _ => true
  | .render _ _ _ => true
  | .readRenderTargetPixels _ _ _ _ _ => true
  | .setClearColor _ _ => false
  | .clear => false

/-- Every component of the vector lies between `-b` and `b`. -/
def Vec3.boundedBy (v : Vec3) (b : ℚ) : Prop :=
  (-b ≤ v.x ∧ v.x ≤ b) ∧ (-b ≤ v.y ∧ v.y ≤ b) ∧ (-b ≤ v.z ∧ v.z ≤ b)

/-- The identity matrix. -/
def Mat4.identity : Mat4 := ⟨⟨1, 0, 0, 0⟩, ⟨0, 1, 0, 0⟩, ⟨0, 0, 1, 0⟩, ⟨0, 0, 0, 1⟩⟩

/-! ## Facts about the numbers -/

theorem mathRound_le (x : ℚ) : (mathRound x : ℚ) ≤ x + 1 / 2 := by
  unfold mathRound
  exact Int.floor_le _

theorem lt_mathRound (x : ℚ) : x - 1 / 2 < (mathRound x : ℚ) := by
  unfold mathRound
  have h := Int.lt_floor_add_one (x + 1 / 2)
  linarith

theorem one_le_mathRound_iff (x : ℚ) : 1 ≤ mathRound x ↔ 1 / 2 ≤ x := by
  unfold mathRound
  rw [Int.le_floor]
  constructor
  · intro h
    have : ((1 : ℤ) : ℚ) = 1 := by norm_num
    linarith
  · intro h
    have : ((1 : ℤ) : ℚ) = 1 := by norm_num
    linarith

theorem mathRound_nonneg (x : ℚ) (hx : 0 ≤ x) : 0 ≤ mathRound x := by
  unfold mathRound
  rw [Int.le_floor]
  have : ((0 : ℤ) : ℚ) = 0 := by norm_num
  linarith

/-! ## Facts about the doubles -/

theorem roundHalfEven_abs_sub_le (x : ℚ) : |(roundHalfEven x : ℚ) - x| ≤ 1 / 2 := by
  have h1 := Int.floor_le x
  have h2 := Int.lt_floor_add_one x
  unfold roundHalfEven
  rw [abs_le]
  split_ifs <;> push_cast <;> constructor <;> linarith

theorem roundHalfEven_eq (x : ℚ) (m : ℤ) (h : |x - m| < 1 / 2) : roundHalfEven x = m := by
  have h1 := Int.floor_le x
  have h2 := Int.lt_floor_add_one x
  rw [abs_lt] at h
  obtain ⟨h3, h4⟩ := h
  have hle : ⌊x⌋ ≤ m := by
    have : ((⌊x⌋ : ℤ) : ℚ) < ((m + 1 : ℤ) : ℚ) := by push_cast; linarith
    have := Int.cast_lt.mp this
    omega
  have hge : m ≤ ⌊x⌋ + 1 := by
    have : ((m : ℤ) : ℚ) < ((⌊x⌋ + 2 : ℤ) : ℚ) := by push_cast; linarith
    have := Int.cast_lt.mp this
    omega
  unfold roundHalfEven
  rcases (by omega : m = ⌊x⌋ ∨ m = ⌊x⌋ + 1) with hm | hm
  · have hx : x - ⌊x⌋ < 1 / 2 := by
      have : (m : ℚ) = ⌊x⌋ := by rw [hm]
      linarith
    rw [if_pos hx, hm]
  · have hx : 1 / 2 < x - ⌊x⌋ := by
      have : (m : ℚ) = ⌊x⌋ + 1 := by rw [hm]; push_cast; rfl
      linarith
    rw [if_neg (by linarith), if_pos hx, hm]

theorem roundHalfEven_nonneg (x : ℚ) (hx : 0 ≤ x) : 0 ≤ roundHalfEven x := by
  have h0 : 0 ≤ ⌊x⌋ := Int.floor_nonneg.mpr hx
  unfold roundHalfEven
  split_ifs <;> omega

theorem ulp_pos (q : ℚ) : 0 < ulp q := by
  unfold ulp
  positivity

theorem log_two_abs_eq (q : ℚ) (k : ℤ) (hlo : (2 : ℚ) ^ k ≤ |q|) (hhi : |q| < (2 : ℚ) ^ (k + 1)) :
    Int.log 2 |q| = k := by
  have hpos : 0 < |q| := lt_of_lt_of_le (by positivity) hlo
  have h1 : k ≤ Int.log 2 |q| := by
    rw [← Int.zpow_le_iff_le_log (by norm_num) hpos]
    simpa using hlo
  have h2 : Int.log 2 |q| < k + 1 := by
    rw [← Int.lt_zpow_iff_log_lt (by norm_num) hpos]
    simpa using hhi
  omega

theorem toDouble_eq (q v : ℚ) (k m : ℤ) (hk : -1022 ≤ k) (hlo : (2 : ℚ) ^ k ≤ |q|)
    (hhi : |q| < (2 : ℚ) ^ (k + 1)) (hm : |q / (2 : ℚ) ^ (k - 52) - m| < 1 / 2)
    (hv : v = m * (2 : ℚ) ^ (k - 52)) : toDouble q = v := by
  unfold toDouble ulp
  rw [log_two_abs_eq q k hlo hhi, max_eq_left hk, roundHalfEven_eq _ m hm, hv]

theorem toDouble_zero : toDouble 0 = 0 := by
  unfold toDouble
  rw [zero_div, roundHalfEven_eq 0 0 (by norm_num)]
  simp

theorem toDouble_abs_sub_le_ulp (q : ℚ) : |toDouble q - q| ≤ ulp q / 2 := by
  have hu := ulp_pos q
  have h := roundHalfEven_abs_sub_le (q / ulp q)
  have e : toDouble q - q = ((roundHalfEven (q / ulp q) : ℚ) - q / ulp q) * ulp q := by
    unfold toDouble
    field_simp
  rw [e, abs_mul, abs_of_pos hu]
  nlinarith [mul_le_mul_of_nonneg_right h (le_of_lt hu)]

theorem toDouble_abs_sub_le (q : ℚ) :
    |toDouble q - q| ≤ |q| / 2 ^ 53 + 1 / 2 ^ 1075 := by
  rcases eq_or_ne q 0 with rfl | hq
  · rw [toDouble_zero]
    simp
  · have hpos : 0 < |q| := abs_pos.mpr hq
    have h := toDouble_abs_sub_le_ulp q
    have hu : ulp q ≤ |q| / 2 ^ 52 + 1 / 2 ^ 1074 := by
      unfold ulp
      rcases le_total (Int.log 2 |q|) (-1022) with hl | hl
      · rw [max_eq_right hl]
        have : (2 : ℚ) ^ ((-1022 : ℤ) - 52) = 1 / 2 ^ 1074 := by
          rw [show ((-1022 : ℤ) - 52) = -((1074 : ℕ) : ℤ) by norm_num, zpow_neg, zpow_natCast]
          simp
        rw [this]
        have : 0 ≤ |q| / 2 ^ 52 := by positivity
        linarith
      · rw [max_eq_left hl]
        have hz := Int.zpow_log_le_self (b := 2) (r := |q|) (by norm_num) hpos
        have : (2 : ℚ) ^ (Int.log 2 |q| - 52) = (2 : ℚ) ^ (Int.log 2 |q|) / 2 ^ 52 := by
          rw [zpow_sub₀ (by norm_num)]
          norm_num
        rw [this]
        have h0 : (0:ℚ) ≤ 1 / 2 ^ 1074 := by positivity
        have : (2 : ℚ) ^ (Int.log 2 |q|) / 2 ^ 52 ≤ |q| / 2 ^ 52 := by
          apply div_le_div_of_nonneg_right _ (by positivity)
          simpa using hz
        linarith
    have e1 : |q| / 2 ^ 53 = (|q| / 2 ^ 52) / 2 := by ring
    have e2 : (1 : ℚ) / 2 ^ 1075 = (1 / 2 ^ 1074) / 2 := by ring
    rw [e1, e2]
    linarith

theorem toDouble_nonneg (q : ℚ) (hq : 0 ≤ q) : 0 ≤ toDouble q := by
  unfold toDouble
  have hu := ulp_pos q
  have : 0 ≤ roundHalfEven (q / ulp q) := roundHalfEven_nonneg _ (by positivity)
  have : (0 : ℚ) ≤ (roundHalfEven (q / ulp q) : ℚ) := by exact_mod_cast this
  positivity

theorem toDouble_eq_of_pos (q v : ℚ) (k m : ℤ) (hk : -1022 ≤ k) (hlo : (2 : ℚ) ^ k ≤ q)
    (hhi : q < (2 : ℚ) ^ (k + 1)) (hm1 : (m : ℚ) - 1 / 2 < q / (2 : ℚ) ^ (k - 52))
    (hm2 : q / (2 : ℚ) ^ (k - 52) < m + 1 / 2) (hv : v = m * (2 : ℚ) ^ (k - 52)) :
    toDouble q = v := by
  have hq : 0 < q := lt_of_lt_of_le (by positivity) hlo
  have ha : |q| = q := abs_of_pos hq
  apply toDouble_eq q v k m hk
  · rw [ha]; exact hlo
  · rw [ha]; exact hhi
  · rw [abs_lt]; constructor <;> linarith
  · exact hv

/-! ## The pixel sizes of the examples, computed in doubles -/

theorem pixels_40_300 :
    mathRound (jsMul (jsDiv 40 INCH_TO_CM) 300) = 4724 := by
  have h1 : toDouble (40 : ℚ)
      = 40 :=
    toDouble_eq_of_pos _ _ (5) 5629499534213120 (by norm_num) (by norm_num) (by norm_num)
      (by norm_num) (by norm_num) (by norm_num)
  have h2 : toDouble (254 / 100 : ℚ)
      = 2859785763380265 / 1125899906842624 :=
    toDouble_eq_of_pos _ _ (1) 5719571526760530 (by norm_num) (by norm_num) (by norm_num)
      (by norm_num) (by norm_num) (by norm_num)
  have h3 : toDouble (40 / (2859785763380265 / 1125899906842624) : ℚ)
      = 277042299912063 / 17592186044416 :=
    toDouble_eq_of_pos _ _ (3) 8865353597186016 (by norm_num) (by norm_num) (by norm_num)
      (by norm_num) (by norm_num) (by norm_num)
  have h4 : toDouble (277042299912063 / 17592186044416 : ℚ)
      = 277042299912063 / 17592186044416 :=
    toDouble_eq_of_pos _ _ (3) 8865353597186016 (by norm_num) (by norm_num) (by norm_num)
      (by norm_num) (by norm_num) (by norm_num)
  have h5 : toDouble (300 : ℚ)
      = 300 :=
    toDouble_eq_of_pos _ _ (8) 5277655813324800 (by norm_num) (by norm_num) (by norm_num)
      (by norm_num) (by norm_num) (by norm_num)
  have h6 : toDouble ((277042299912063 / 17592186044416) * 300 : ℚ)
      = 5194543123351181 / 1099511627776 :=
    toDouble_eq_of_pos _ _ (12) 5194543123351181 (by norm_num) (by norm_num) (by norm_num)
      (by norm_num) (by norm_num) (by norm_num)
  unfold jsMul jsDiv INCH_TO_CM
  rw [h1, h2, h3, h4, h5, h6]
  unfold mathRound
  norm_num

theorem pixels_30_300 :
    mathRound (jsMul (jsDiv 30 INCH_TO_CM) 300) = 3543 := by
  have h1 : toDouble (30 : ℚ)
      = 30 :=
    toDouble_eq_of_pos _ _ (4) 8444249301319680 (by norm_num) (by norm_num) (by norm_num)
      (by norm_num) (by norm_num) (by norm_num)
  have h2 : toDouble (254 / 100 : ℚ)
      = 2859785763380265 / 1125899906842624 :=
    toDouble_eq_of_pos _ _ (1) 5719571526760530 (by norm_num) (by norm_num) (by norm_num)
      (by norm_num) (by norm_num) (by norm_num)
  have h3 : toDouble (30 / (2859785763380265 / 1125899906842624) : ℚ)
      = 831126899736189 / 70368744177664 :=
    toDouble_eq_of_pos _ _ (3) 6649015197889512 (by norm_num) (by norm_num) (by norm_num)
      (by norm_num) (by norm_num) (by norm_num)
  have h4 : toDouble (831126899736189 / 70368744177664 : ℚ)
      = 831126899736189 / 70368744177664 :=
    toDouble_eq_of_pos _ _ (3) 6649015197889512 (by norm_num) (by norm_num) (by norm_num)
      (by norm_num) (by norm_num) (by norm_num)
  have h5 : toDouble (300 : ℚ)
      = 300 :=
    toDouble_eq_of_pos _ _ (8) 5277655813324800 (by norm_num) (by norm_num) (by norm_num)
      (by norm_num) (by norm_num) (by norm_num)
  have h6 : toDouble ((831126899736189 / 70368744177664) * 300 : ℚ)
      = 1947953671256693 / 549755813888 :=
    toDouble_eq_of_pos _ _ (11) 7791814685026772 (by norm_num) (by norm_num) (by norm_num)
      (by norm_num) (by norm_num) (by norm_num)
  unfold jsMul jsDiv INCH_TO_CM
  rw [h1, h2, h3, h4, h5, h6]
  unfold mathRound
  norm_num

theorem pixels_20_150 :
    mathRound (jsMul (jsDiv 20 INCH_TO_CM) 150) = 1181 := by
  have h1 : toDouble (20 : ℚ)
      = 20 :=
    toDouble_eq_of_pos _ _ (4) 5629499534213120 (by norm_num) (by norm_num) (by norm_num)
      (by norm_num) (by norm_num) (by norm_num)
  have h2 : toDouble (254 / 100 : ℚ)
      = 2859785763380265 / 1125899906842624 :=
    toDouble_eq_of_pos _ _ (1) 5719571526760530 (by norm_num) (by norm_num) (by norm_num)
      (by norm_num) (by norm_num) (by norm_num)
  have h3 : toDouble (20 / (2859785763380265 / 1125899906842624) : ℚ)
      = 277042299912063 / 35184372088832 :=
    toDouble_eq_of_pos _ _ (2) 8865353597186016 (by norm_num) (by norm_num) (by norm_num)
      (by norm_num) (by norm_num) (by norm_num)
  have h4 : toDouble (277042299912063 / 35184372088832 : ℚ)
      = 277042299912063 / 35184372088832 :=
    toDouble_eq_of_pos _ _ (2) 8865353597186016 (by norm_num) (by norm_num) (by norm_num)
      (by norm_num) (by norm_num) (by norm_num)
  have h5 : toDouble (150 : ℚ)
      = 150 :=
    toDouble_eq_of_pos _ _ (7) 5277655813324800 (by norm_num) (by norm_num) (by norm_num)
      (by norm_num) (by norm_num) (by norm_num)
  have h6 : toDouble ((277042299912063 / 35184372088832) * 150 : ℚ)
      = 5194543123351181 / 4398046511104 :=
    toDouble_eq_of_pos _ _ (10) 5194543123351181 (by norm_num) (by norm_num) (by norm_num)
      (by norm_num) (by norm_num) (by norm_num)
  unfold jsMul jsDiv INCH_TO_CM
  rw [h1, h2, h3, h4, h5, h6]
  unfold mathRound
  norm_num

theorem pixels_20_300 :
    mathRound (jsMul (jsDiv 20 INCH_TO_CM) 300) = 2362 := by
  have h1 : toDouble (20 : ℚ)
      = 20 :=
    toDouble_eq_of_pos _ _ (4) 5629499534213120 (by norm_num) (by norm_num) (by norm_num)
      (by norm_num) (by norm_num) (by norm_num)
  have h2 : toDouble (254 / 100 : ℚ)
      = 2859785763380265 / 1125899906842624 :=
    toDouble_eq_of_pos _ _ (1) 5719571526760530 (by norm_num) (by norm_num) (by norm_num)
      (by norm_num) (by norm_num) (by norm_num)
  have h3 : toDouble (20 / (2859785763380265 / 1125899906842624) : ℚ)
      = 277042299912063 / 35184372088832 :=
    toDouble_eq_of_pos _ _ (2) 8865353597186016 (by norm_num) (by norm_num) (by norm_num)
      (by norm_num) (by norm_num) (by norm_num)
  have h4 : toDouble (277042299912063 / 35184372088832 : ℚ)
      = 277042299912063 / 35184372088832 :=
    toDouble_eq_of_pos _ _ (2) 8865353597186016 (by norm_num) (by norm_num) (by norm_num)
      (by norm_num) (by norm_num) (by norm_num)
  have h5 : toDouble (300 : ℚ)
      = 300 :=
    toDouble_eq_of_pos _ _ (8) 5277655813324800 (by norm_num) (by norm_num) (by norm_num)
      (by norm_num) (by norm_num) (by norm_num)
  have h6 : toDouble ((277042299912063 / 35184372088832) * 300 : ℚ)
      = 5194543123351181 / 2199023255552 :=
    toDouble_eq_of_pos _ _ (11) 5194543123351181 (by norm_num) (by norm_num) (by norm_num)
      (by norm_num) (by norm_num) (by norm_num)
  unfold jsMul jsDiv INCH_TO_CM
  rw [h1, h2, h3, h4, h5, h6]
  unfold mathRound
  norm_num

theorem pixels_quarter_127 :
    mathRound (jsMul (jsDiv (1 / 4) INCH_TO_CM) 127) = 12 := by
  have h1 : toDouble (1 / 4 : ℚ)
      = 1 / 4 :=
    toDouble_eq_of_pos _ _ (-2) 4503599627370496 (by norm_num) (by norm_num) (by norm_num)
      (by norm_num) (by norm_num) (by norm_num)
  have h2 : toDouble (254 / 100 : ℚ)
      = 2859785763380265 / 1125899906842624 :=
    toDouble_eq_of_pos _ _ (1) 5719571526760530 (by norm_num) (by norm_num) (by norm_num)
      (by norm_num) (by norm_num) (by norm_num)
  have h3 : toDouble ((1 / 4) / (2859785763380265 / 1125899906842624) : ℚ)
      = 1773070719437203 / 18014398509481984 :=
    toDouble_eq_of_pos _ _ (-4) 7092282877748812 (by norm_num) (by norm_num) (by norm_num)
      (by norm_num) (by norm_num) (by norm_num)
  have h4 : toDouble (1773070719437203 / 18014398509481984 : ℚ)
      = 1773070719437203 / 18014398509481984 :=
    toDouble_eq_of_pos _ _ (-4) 7092282877748812 (by norm_num) (by norm_num) (by norm_num)
      (by norm_num) (by norm_num) (by norm_num)
  have h5 : toDouble (127 : ℚ)
      = 127 :=
    toDouble_eq_of_pos _ _ (6) 8936830510563328 (by norm_num) (by norm_num) (by norm_num)
      (by norm_num) (by norm_num) (by norm_num)
  have h6 : toDouble ((1773070719437203 / 18014398509481984) * 127 : ℚ)
      = 7036874417766399 / 562949953421312 :=
    toDouble_eq_of_pos _ _ (3) 7036874417766399 (by norm_num) (by norm_num) (by norm_num)
      (by norm_num) (by norm_num) (by norm_num)
  unfold jsMul jsDiv INCH_TO_CM
  rw [h1, h2, h3, h4, h5, h6]
  unfold mathRound
  norm_num

theorem pixels_hundredth_1 :
    mathRound (jsMul (jsDiv (1 / 100) INCH_TO_CM) 1) = 0 := by
  have h1 : toDouble (1 / 100 : ℚ)
      = 5764607523034235 / 576460752303423488 :=
    toDouble_eq_of_pos _ _ (-7) 5764607523034235 (by norm_num) (by norm_num) (by norm_num)
      (by norm_num) (by norm_num) (by norm_num)
  have h2 : toDouble (254 / 100 : ℚ)
      = 2859785763380265 / 1125899906842624 :=
    toDouble_eq_of_pos _ _ (1) 5719571526760530 (by norm_num) (by norm_num) (by norm_num)
      (by norm_num) (by norm_num) (by norm_num)
  have h3 : toDouble ((5764607523034235 / 576460752303423488) / (2859785763380265 / 1125899906842624) : ℚ)
      = 567382630219905 / 144115188075855872 :=
    toDouble_eq_of_pos _ _ (-8) 4539061041759240 (by norm_num) (by norm_num) (by norm_num)
      (by norm_num) (by norm_num) (by norm_num)
  have h4 : toDouble (567382630219905 / 144115188075855872 : ℚ)
      = 567382630219905 / 144115188075855872 :=
    toDouble_eq_of_pos _ _ (-8) 4539061041759240 (by norm_num) (by norm_num) (by norm_num)
      (by norm_num) (by norm_num) (by norm_num)
  have h5 : toDouble (1 : ℚ)
      = 1 :=
    toDouble_eq_of_pos _ _ (0) 4503599627370496 (by norm_num) (by norm_num) (by norm_num)
      (by norm_num) (by norm_num) (by norm_num)
  have h6 : toDouble ((567382630219905 / 144115188075855872) * 1 : ℚ)
      = 567382630219905 / 144115188075855872 :=
    toDouble_eq_of_pos _ _ (-8) 4539061041759240 (by norm_num) (by norm_num) (by norm_num)
      (by norm_num) (by norm_num) (by norm_num)
  unfold jsMul jsDiv INCH_TO_CM
  rw [h1, h2, h3, h4, h5, h6]
  unfold mathRound
  norm_num

theorem pixels_half_254 :
    mathRound (jsMul (jsDiv (1 / 2) INCH_TO_CM) (254 / 100)) = 0 := by
  have h1 : toDouble (1 / 2 : ℚ)
      = 1 / 2 :=
    toDouble_eq_of_pos _ _ (-1) 4503599627370496 (by norm_num) (by norm_num) (by norm_num)
      (by norm_num) (by norm_num) (by norm_num)
  have h2 : toDouble (254 / 100 : ℚ)
      = 2859785763380265 / 1125899906842624 :=
    toDouble_eq_of_pos _ _ (1) 5719571526760530 (by norm_num) (by norm_num) (by norm_num)
      (by norm_num) (by norm_num) (by norm_num)
  have h3 : toDouble ((1 / 2) / (2859785763380265 / 1125899906842624) : ℚ)
      = 1773070719437203 / 9007199254740992 :=
    toDouble_eq_of_pos _ _ (-3) 7092282877748812 (by norm_num) (by norm_num) (by norm_num)
      (by norm_num) (by norm_num) (by norm_num)
  have h4 : toDouble (1773070719437203 / 9007199254740992 : ℚ)
      = 1773070719437203 / 9007199254740992 :=
    toDouble_eq_of_pos _ _ (-3) 7092282877748812 (by norm_num) (by norm_num) (by norm_num)
      (by norm_num) (by norm_num) (by norm_num)
  have h5 : toDouble ((1773070719437203 / 9007199254740992) * (2859785763380265 / 1125899906842624) : ℚ)
      = 9007199254740991 / 18014398509481984 :=
    toDouble_eq_of_pos _ _ (-2) 9007199254740991 (by norm_num) (by norm_num) (by norm_num)
      (by norm_num) (by norm_num) (by norm_num)
  unfold jsMul jsDiv INCH_TO_CM
  rw [h1, h2, h3, h4, h5]
  unfold mathRound
  norm_num

theorem pixels_zero (dpi : ℚ) : mathRound (jsMul (jsDiv 0 INCH_TO_CM) dpi) = 0 := by
  unfold jsMul jsDiv
  rw [toDouble_zero, zero_div, toDouble_zero, toDouble_zero, zero_mul, toDouble_zero]
  unfold mathRound
  norm_num

theorem jsMul_jsDiv_nonneg (cm dpi : ℚ) (hcm : 0 ≤ cm) (hdpi : 0 ≤ dpi) :
    0 ≤ jsMul (jsDiv cm INCH_TO_CM) dpi := by
  unfold jsMul jsDiv
  have hc : (0 : ℚ) ≤ toDouble INCH_TO_CM := toDouble_nonneg _ (by norm_num [INCH_TO_CM])
  have hq := toDouble_nonneg _ (div_nonneg (toDouble_nonneg cm hcm) hc)
  exact toDouble_nonneg _ (mul_nonneg (toDouble_nonneg _ hq) (toDouble_nonneg dpi hdpi))

/-! ## Facts about a run of `exportHighResImage` -/

theorem exportHighResImage_renderTarget (host : Host) (renderer : Renderer)
    (paperMaterial : ShaderMaterial) (geometry : PlaneGeometry) (w h d : ℚ) :
    (exportHighResImage host renderer paperMaterial geometry w h d).renderTarget
      = ⟨mathRound (jsMul (jsDiv w INCH_TO_CM) d), mathRound (jsMul (jsDiv h INCH_TO_CM) d)⟩ := by
  unfold exportHighResImage
  split_ifs <;> rfl

theorem exportHighResImage_exportCamera (host : Host) (renderer : Renderer)
    (paperMaterial : ShaderMaterial) (geometry : PlaneGeometry) (w h d : ℚ) :
    (exportHighResImage host renderer paperMaterial geometry w h d).exportCamera
      = { left := -(w * (1 / 10)) / 2, right := (w * (1 / 10)) / 2,
          top := (h * (1 / 10)) / 2, bottom := -(h * (1 / 10)) / 2,
          near := 1 / 10, far := 10, positionZ := 1 } := by
  unfold exportHighResImage
  split_ifs <;> rfl

theorem exportHighResImage_completed_iff (host : Host) (renderer : Renderer)
    (paperMaterial : ShaderMaterial) (geometry : PlaneGeometry) (w h d : ℚ) :
    (exportHighResImage host renderer paperMaterial geometry w h d).outcome.isCompleted = true
      ↔ host.renderThrows = false ∧ host.readbackThrows = false ∧ host.encodeThrows = false := by
  unfold exportHighResImage
  split_ifs <;> simp_all [ExportOutcome.isCompleted]

theorem exportHighResImage_after_render (host : Host) (renderer : Renderer)
    (paperMaterial : ShaderMaterial) (geometry : PlaneGeometry) (w h d : ℚ)
    (hrender : host.renderThrows = false) :
    (exportHighResImage host renderer paperMaterial geometry w h d).renderer.renderTarget
        = renderer.renderTarget
    ∧ (exportHighResImage host renderer paperMaterial geometry w h d).renderer.clearColor
        = 0x282c34
    ∧ (exportHighResImage host renderer paperMaterial geometry w h d).renderer.clearAlpha = 1
    ∧ (exportHighResImage host renderer paperMaterial geometry w h d).paperMaterial.u_isExporting
        = false := by
  unfold exportHighResImage
  simp only [hrender, Bool.false_eq_true, if_false]
  split_ifs <;>
    simp [Renderer.setRenderTarget, Renderer.setClearColor, Renderer.clear, Renderer.render,
      Renderer.readRenderTargetPixels, Renderer.getRenderTarget]

theorem exportHighResImage_render_throws (host : Host) (renderer : Renderer)
    (paperMaterial : ShaderMaterial) (geometry : PlaneGeometry) (w h d : ℚ)
    (hrender : host.renderThrows = true) :
    (exportHighResImage host renderer paperMaterial geometry w h d).outcome = .threw .render
    ∧ (exportHighResImage host renderer paperMaterial geometry w h d).renderer.renderTarget
        = some ⟨mathRound (jsMul (jsDiv w INCH_TO_CM) d), mathRound (jsMul (jsDiv h INCH_TO_CM) d)⟩
    ∧ (exportHighResImage host renderer paperMaterial geometry w h d).renderer.clearColor
        = 0xffffff
    ∧ (exportHighResImage host renderer paperMaterial geometry w h d).paperMaterial.u_isExporting
        = true := by
  unfold exportHighResImage
  simp [hrender, Renderer.setRenderTarget, Renderer.setClearColor, Renderer.clear,
    Renderer.getRenderTarget]

theorem exportHighResImage_calls_prefix (host : Host) (renderer : Renderer)
    (paperMaterial : ShaderMaterial) (geometry : PlaneGeometry) (w h d : ℚ) :
    ∃ rest, (exportHighResImage host renderer paperMaterial geometry w h d).renderer.calls
      = renderer.calls
        ++ [GLCall.setRenderTarget
              (some ⟨mathRound (jsMul (jsDiv w INCH_TO_CM) d), mathRound (jsMul (jsDiv h INCH_TO_CM) d)⟩),
            GLCall.setClearColor 0xffffff 1, GLCall.clear]
        ++ rest := by
  unfold exportHighResImage
  dsimp only
  split_ifs
  · exact ⟨[], by simp [Renderer.setRenderTarget, Renderer.setClearColor, Renderer.clear]⟩
  · exact ⟨_, by
      simp only [Renderer.setRenderTarget, Renderer.setClearColor, Renderer.clear,
        Renderer.render, List.append_assoc, List.singleton_append, List.cons_append,
        List.nil_append]
      rfl⟩
  · exact ⟨_, by
      simp only [Renderer.setRenderTarget, Renderer.setClearColor, Renderer.clear,
        Renderer.render, Renderer.readRenderTargetPixels, List.append_assoc,
        List.singleton_append, List.cons_append, List.nil_append]
      rfl⟩
  · exact ⟨_, by
      simp only [Renderer.setRenderTarget, Renderer.setClearColor, Renderer.clear,
        Renderer.render, Renderer.readRenderTargetPixels, List.append_assoc,
        List.singleton_append, List.cons_append, List.nil_append]
      rfl⟩

theorem ExportOutcome.notice_ne_alert (o : ExportOutcome) (message : String) :
    o.notice ≠ Notice.alert message := by
  rcases o with _ | stage
  · simp [ExportOutcome.notice]
  · cases stage <;> simp [ExportOutcome.notice]

/-! ## Facts about the handlers -/

/-- In every state the page can be in, bake mode is on only if an image is
loaded. -/
def BakeNeedsImage (s : App) : Prop := s.isBakeMode = true → s.projectionTexture.isSome = true

theorem updatePaperSize_isBakeMode (s : App) (w h : ℚ) :
    (updatePaperSize s w h).isBakeMode = s.isBakeMode
    ∧ (updatePaperSize s w h).projectionTexture = s.projectionTexture := by
  unfold updatePaperSize
  exact ⟨rfl, rfl⟩

theorem updatePaper_isBakeMode (s : App) :
    (updatePaper s).isBakeMode = s.isBakeMode
    ∧ (updatePaper s).projectionTexture = s.projectionTexture := by
  unfold updatePaper
  dsimp only
  split_ifs
  · exact updatePaperSize_isBakeMode _ _ _
  · exact ⟨rfl, rfl⟩

theorem switchTransformTarget_isBakeMode (s : App) :
    (switchTransformTarget s).isBakeMode = s.isBakeMode
    ∧ (switchTransformTarget s).projectionTexture = s.projectionTexture := by
  unfold switchTransformTarget
  dsimp only
  split_ifs <;> exact ⟨rfl, rfl⟩

theorem onClick_isBakeMode (s : App) (hit : ClickTarget) :
    (onClick s hit).isBakeMode = s.isBakeMode
    ∧ (onClick s hit).projectionTexture = s.projectionTexture := by
  cases hit <;> exact ⟨rfl, rfl⟩

theorem exportImage_isBakeMode (host : Host) (s : App) :
    (exportImage host s).isBakeMode = s.isBakeMode
    ∧ (exportImage host s).projectionTexture = s.projectionTexture := by
  unfold exportImage
  split_ifs
  · exact ⟨rfl, rfl⟩
  · cases s.flatPaperObject <;> exact ⟨rfl, rfl⟩

theorem bakeProjectedTexture_projectionTexture (host : Host) (s : App) :
    (bakeProjectedTexture host s).1.projectionTexture = s.projectionTexture := by
  unfold bakeProjectedTexture
  cases s.flatPaperObject with
  | none => rfl
  | some flat =>
    dsimp only
    split_ifs <;> rfl

theorem toggleBakeMode_projectionTexture (host : Host) (s : App) :
    (toggleBakeMode host s).projectionTexture = s.projectionTexture := by
  unfold toggleBakeMode
  dsimp only
  by_cases h1 : (!s.isBakeMode) = true
  · rw [if_pos h1]
    by_cases h2 : s.projectionTexture.isNone = true
    · rw [if_pos h2]
    · rw [if_neg h2]
      have hb := bakeProjectedTexture_projectionTexture host
        { s with isBakeMode := !s.isBakeMode }
      rcases hrun : bakeProjectedTexture host { s with isBakeMode := !s.isBakeMode } with ⟨t, ok⟩
      rw [hrun] at hb
      cases ok
      · exact hb
      · dsimp only
        cases t.foldedObject <;> cases t.flatPaperObject <;> exact hb
  · rw [if_neg h1]
    cases s.foldedObject <;> cases s.flatPaperObject <;>
      first
        | rfl
        | (dsimp only
           split_ifs <;> rfl)

theorem toggleBakeMode_isBakeMode_of_no_image (host : Host) (s : App)
    (hno : s.projectionTexture = none) : (toggleBakeMode host s).isBakeMode = false := by
  unfold toggleBakeMode
  dsimp only
  by_cases h1 : (!s.isBakeMode) = true
  · rw [if_pos h1, hno]
    rfl
  · rw [if_neg h1]
    have hb : (!s.isBakeMode) = false := by simpa using h1
    cases s.foldedObject <;> cases s.flatPaperObject <;>
      first
        | exact hb
        | (dsimp only
           split_ifs <;> exact hb)

theorem toggleBakeMode_bakeNeedsImage (host : Host) (s : App) :
    BakeNeedsImage (toggleBakeMode host s) := by
  intro hbake
  rw [toggleBakeMode_projectionTexture]
  cases h : s.projectionTexture with
  | some t => rfl
  | none =>
    rw [toggleBakeMode_isBakeMode_of_no_image host s h] at hbake
    exact absurd hbake (by decide)

theorem step_bakeNeedsImage (s : App) (a : Action) (hs : BakeNeedsImage s) :
    BakeNeedsImage (step s a) := by
  cases a with
  | paperWidthChange v =>
    intro hb
    have h := updatePaper_isBakeMode { s with dom := { s.dom with paperWidth := v } }
    simp only [step] at hb ⊢
    rw [h.1] at hb
    rw [h.2]
    exact hs hb
  | paperHeightChange v =>
    intro hb
    have h := updatePaper_isBakeMode { s with dom := { s.dom with paperHeight := v } }
    simp only [step] at hb ⊢
    rw [h.1] at hb
    rw [h.2]
    exact hs hb
  | dpiEdit v => exact hs
  | imageLoaded texture =>
    intro _
    rfl
  | targetChange v =>
    intro hb
    have h := switchTransformTarget_isBakeMode { s with dom := { s.dom with transformTarget := v } }
    simp only [step] at hb ⊢
    rw [h.1] at hb
    rw [h.2]
    exact hs hb
  | click hit =>
    intro hb
    have h := onClick_isBakeMode s hit
    simp only [step] at hb ⊢
    rw [h.1] at hb
    rw [h.2]
    exact hs hb
  | exportClick host =>
    intro hb
    have h := exportImage_isBakeMode host s
    simp only [step] at hb ⊢
    rw [h.1] at hb
    rw [h.2]
    exact hs hb
  | toggleBake host => exact toggleBakeMode_bakeNeedsImage host s
  | sliderInput g axis v => exact hs
  | numberChange g axis v => exact hs
  | helperDragged position rotation scale => exact hs

theorem run_bakeNeedsImage (actions : List Action) (s : App) (hs : BakeNeedsImage s) :
    BakeNeedsImage (run s actions) := by
  induction actions generalizing s with
  | nil => exact hs
  | cons a rest ih => exact ih (step s a) (step_bakeNeedsImage s a hs)

theorem initial_bakeNeedsImage (dom : Dom) : BakeNeedsImage (App.initial dom) := by
  intro hb
  simp [App.initial, updatePaperSize] at hb

theorem reachable_bakeNeedsImage (s : App) (hs : Reachable s) : BakeNeedsImage s := by
  obtain ⟨dom, actions, rfl⟩ := hs
  exact run_bakeNeedsImage actions _ (initial_bakeNeedsImage dom)

theorem updatePaperSize_transformControls (s : App) (w h : ℚ) :
    (updatePaperSize s w h).transformControls = s.transformControls
    ∧ (updatePaperSize s w h).foldedObject.map (fun m => m.id) = some s.nextId := by
  unfold updatePaperSize
  exact ⟨rfl, rfl⟩

theorem exportHighResImage_calls_of_completed (host : Host) (renderer : Renderer)
    (paperMaterial : ShaderMaterial) (geometry : PlaneGeometry) (w h d : ℚ)
    (hrender : host.renderThrows = false) (hread : host.readbackThrows = false) :
    (exportHighResImage host renderer paperMaterial geometry w h d).renderer.calls
      = renderer.calls
        ++ [GLCall.setRenderTarget
              (some ⟨mathRound (jsMul (jsDiv w INCH_TO_CM) d), mathRound (jsMul (jsDiv h INCH_TO_CM) d)⟩),
            GLCall.setClearColor 0xffffff 1,
            GLCall.clear,
            GLCall.render geometry true
              { left := -(w * (1 / 10)) / 2, right := (w * (1 / 10)) / 2,
                top := (h * (1 / 10)) / 2, bottom := -(h * (1 / 10)) / 2,
                near := 1 / 10, far := 10, positionZ := 1 },
            GLCall.setRenderTarget renderer.renderTarget,
            GLCall.setClearColor 0x282c34 1,
            GLCall.readRenderTargetPixels
              ⟨mathRound (jsMul (jsDiv w INCH_TO_CM) d), mathRound (jsMul (jsDiv h INCH_TO_CM) d)⟩ 0 0
              (mathRound (jsMul (jsDiv w INCH_TO_CM) d)) (mathRound (jsMul (jsDiv h INCH_TO_CM) d))] := by
  unfold exportHighResImage
  simp only [hrender, hread, Bool.false_eq_true, if_false]
  split_ifs <;>
    simp [Renderer.setRenderTarget, Renderer.setClearColor, Renderer.clear, Renderer.render,
      Renderer.readRenderTargetPixels, Renderer.getRenderTarget]

theorem exportHighResImage_calls (host : Host) (renderer : Renderer)
    (paperMaterial : ShaderMaterial) (geometry : PlaneGeometry) (w h d : ℚ) :
    (exportHighResImage host renderer paperMaterial geometry w h d).renderer.calls
      = renderer.calls
        ++ (if host.renderThrows then
              [GLCall.setRenderTarget
                (some ⟨mathRound (jsMul (jsDiv w INCH_TO_CM) d),
                  mathRound (jsMul (jsDiv h INCH_TO_CM) d)⟩),
               GLCall.setClearColor 0xffffff 1, GLCall.clear]
            else if host.readbackThrows then
              [GLCall.setRenderTarget
                (some ⟨mathRound (jsMul (jsDiv w INCH_TO_CM) d),
                  mathRound (jsMul (jsDiv h INCH_TO_CM) d)⟩),
               GLCall.setClearColor 0xffffff 1, GLCall.clear,
               GLCall.render geometry true
                 { left := -(w * (1 / 10)) / 2, right := (w * (1 / 10)) / 2,
                   top := (h * (1 / 10)) / 2, bottom := -(h * (1 / 10)) / 2,
                   near := 1 / 10, far := 10, positionZ := 1 },
               GLCall.setRenderTarget renderer.renderTarget,
               GLCall.setClearColor 0x282c34 1]
            else
              [GLCall.setRenderTarget
                (some ⟨mathRound (jsMul (jsDiv w INCH_TO_CM) d),
                  mathRound (jsMul (jsDiv h INCH_TO_CM) d)⟩),
               GLCall.setClearColor 0xffffff 1, GLCall.clear,
               GLCall.render geometry true
                 { left := -(w * (1 / 10)) / 2, right := (w * (1 / 10)) / 2,
                   top := (h * (1 / 10)) / 2, bottom := -(h * (1 / 10)) / 2,
                   near := 1 / 10, far := 10, positionZ := 1 },
               GLCall.setRenderTarget renderer.renderTarget,
               GLCall.setClearColor 0x282c34 1,
               GLCall.readRenderTargetPixels
                 ⟨mathRound (jsMul (jsDiv w INCH_TO_CM) d),
                   mathRound (jsMul (jsDiv h INCH_TO_CM) d)⟩ 0 0
                 (mathRound (jsMul (jsDiv w INCH_TO_CM) d))
                 (mathRound (jsMul (jsDiv h INCH_TO_CM) d))]) := by
  unfold exportHighResImage
  dsimp only
  split_ifs <;>
    simp [Renderer.setRenderTarget, Renderer.setClearColor, Renderer.clear, Renderer.render,
      Renderer.readRenderTargetPixels, Renderer.getRenderTarget]

/-! ## Facts about the projector controls -/

theorem toFixed_abs_sub_le (x : ℚ) (digits : ℕ) :
    |toFixed x digits - x| ≤ 1 / (2 * 10 ^ digits) := by
  have hp : (0 : ℚ) < 10 ^ digits := by positivity
  unfold toFixed
  split_ifs with hx
  · have h1 := Int.floor_le (-x * 10 ^ digits + 1 / 2)
    have h2 := Int.lt_floor_add_one (-x * 10 ^ digits + 1 / 2)
    have e : -(((⌊-x * 10 ^ digits + 1 / 2⌋ : ℤ) : ℚ) / 10 ^ digits) - x
        = (-((⌊-x * 10 ^ digits + 1 / 2⌋ : ℤ) : ℚ) - x * 10 ^ digits) / 10 ^ digits := by
      field_simp
      ring
    have hb : |(-((⌊-x * 10 ^ digits + 1 / 2⌋ : ℤ) : ℚ) - x * 10 ^ digits)| ≤ 1 / 2 := by
      rw [abs_le]
      constructor <;> linarith
    rw [e, abs_div, abs_of_pos hp, div_le_div_iff₀ hp (by positivity)]
    nlinarith [mul_le_mul_of_nonneg_right hb (le_of_lt hp)]
  · have h1 := Int.floor_le (x * 10 ^ digits + 1 / 2)
    have h2 := Int.lt_floor_add_one (x * 10 ^ digits + 1 / 2)
    have e : ((⌊x * 10 ^ digits + 1 / 2⌋ : ℤ) : ℚ) / 10 ^ digits - x
        = (((⌊x * 10 ^ digits + 1 / 2⌋ : ℤ) : ℚ) - x * 10 ^ digits) / 10 ^ digits := by
      field_simp
      ring
    have hb : |(((⌊x * 10 ^ digits + 1 / 2⌋ : ℤ) : ℚ) - x * 10 ^ digits)| ≤ 1 / 2 := by
      rw [abs_le]
      constructor <;> linarith
    rw [e, abs_div, abs_of_pos hp, div_le_div_iff₀ hp (by positivity)]
    nlinarith [mul_le_mul_of_nonneg_right hb (le_of_lt hp)]

theorem DEG2RAD_eq : DEG2RAD = 5030569068109113 / 288230376151711744 := by
  have h1 : toDouble (884279719003555 / 281474976710656 : ℚ)
      = 884279719003555 / 281474976710656 :=
    toDouble_eq_of_pos _ _ (1) 7074237752028440 (by norm_num) (by norm_num) (by norm_num)
      (by norm_num) (by norm_num) (by norm_num)
  have h2 : toDouble (180 : ℚ)
      = 180 :=
    toDouble_eq_of_pos _ _ (7) 6333186975989760 (by norm_num) (by norm_num) (by norm_num)
      (by norm_num) (by norm_num) (by norm_num)
  have h3 : toDouble ((884279719003555 / 281474976710656) / 180 : ℚ)
      = 5030569068109113 / 288230376151711744 :=
    toDouble_eq_of_pos _ _ (-6) 5030569068109113 (by norm_num) (by norm_num) (by norm_num)
      (by norm_num) (by norm_num) (by norm_num)
  unfold DEG2RAD jsDiv MATH_PI
  rw [h1, h2, h3]

theorem RAD2DEG_eq : RAD2DEG = 1007958012753983 / 17592186044416 := by
  have h1 : toDouble (180 : ℚ)
      = 180 :=
    toDouble_eq_of_pos _ _ (7) 6333186975989760 (by norm_num) (by norm_num) (by norm_num)
      (by norm_num) (by norm_num) (by norm_num)
  have h2 : toDouble (884279719003555 / 281474976710656 : ℚ)
      = 884279719003555 / 281474976710656 :=
    toDouble_eq_of_pos _ _ (1) 7074237752028440 (by norm_num) (by norm_num) (by norm_num)
      (by norm_num) (by norm_num) (by norm_num)
  have h3 : toDouble (180 / (884279719003555 / 281474976710656) : ℚ)
      = 1007958012753983 / 17592186044416 :=
    toDouble_eq_of_pos _ _ (5) 8063664102031864 (by norm_num) (by norm_num) (by norm_num)
      (by norm_num) (by norm_num) (by norm_num)
  unfold RAD2DEG jsDiv MATH_PI
  rw [h1, h2, h3]

theorem toDouble_DEG2RAD : toDouble DEG2RAD = 5030569068109113 / 288230376151711744 := by
  have h1 : toDouble (5030569068109113 / 288230376151711744 : ℚ)
      = 5030569068109113 / 288230376151711744 :=
    toDouble_eq_of_pos _ _ (-6) 5030569068109113 (by norm_num) (by norm_num) (by norm_num)
      (by norm_num) (by norm_num) (by norm_num)
  rw [DEG2RAD_eq]
  exact h1

theorem toDouble_RAD2DEG : toDouble RAD2DEG = 1007958012753983 / 17592186044416 := by
  have h1 : toDouble (1007958012753983 / 17592186044416 : ℚ)
      = 1007958012753983 / 17592186044416 :=
    toDouble_eq_of_pos _ _ (5) 8063664102031864 (by norm_num) (by norm_num) (by norm_num)
      (by norm_num) (by norm_num) (by norm_num)
  rw [RAD2DEG_eq]
  exact h1

theorem toDouble_CM_TO_UNIT_SCALE : toDouble CM_TO_UNIT_SCALE = 3602879701896397 / 36028797018963968 := by
  have h1 : toDouble (1 / 10 : ℚ)
      = 3602879701896397 / 36028797018963968 :=
    toDouble_eq_of_pos _ _ (-4) 7205759403792794 (by norm_num) (by norm_num) (by norm_num)
      (by norm_num) (by norm_num) (by norm_num)
  unfold CM_TO_UNIT_SCALE
  exact h1

theorem position_round_trip_large :
    toFixed (jsDiv (jsMul (parseFloat 2000000000000001) CM_TO_UNIT_SCALE) CM_TO_UNIT_SCALE) 1
      = 20000000000000013 / 10 := by
  have h1 : toDouble (2000000000000001 : ℚ)
      = 2000000000000001 :=
    toDouble_eq_of_pos _ _ (50) 8000000000000004 (by norm_num) (by norm_num) (by norm_num)
      (by norm_num) (by norm_num) (by norm_num)
  have h2 : toDouble (2000000000000001 * (3602879701896397 / 36028797018963968) : ℚ)
      = 1600000000000001 / 8 :=
    toDouble_eq_of_pos _ _ (47) 6400000000000004 (by norm_num) (by norm_num) (by norm_num)
      (by norm_num) (by norm_num) (by norm_num)
  have h3 : toDouble (1600000000000001 / 8 : ℚ)
      = 1600000000000001 / 8 :=
    toDouble_eq_of_pos _ _ (47) 6400000000000004 (by norm_num) (by norm_num) (by norm_num)
      (by norm_num) (by norm_num) (by norm_num)
  have h4 : toDouble ((1600000000000001 / 8) / (3602879701896397 / 36028797018963968) : ℚ)
      = 8000000000000005 / 4 :=
    toDouble_eq_of_pos _ _ (50) 8000000000000005 (by norm_num) (by norm_num) (by norm_num)
      (by norm_num) (by norm_num) (by norm_num)
  unfold jsDiv jsMul parseFloat
  rw [toDouble_CM_TO_UNIT_SCALE, h1, h1, h2, h3, h4]
  unfold toFixed
  norm_num

theorem toDouble_close (q : ℚ) (h : |q| ≤ 10 ^ 7) : |toDouble q - q| ≤ 2 / 10 ^ 9 := by
  have h1 := toDouble_abs_sub_le q
  have h2 : |q| / 2 ^ 53 ≤ 10 ^ 7 / 2 ^ 53 := div_le_div_of_nonneg_right h (by positivity)
  have h3 : (10 : ℚ) ^ 7 / 2 ^ 53 + 1 / 2 ^ 1075 ≤ 2 / 10 ^ 9 := by norm_num
  linarith

theorem abs_le_add_of_close (u v b e : ℚ) (huv : |u - v| ≤ e) (hv : |v| ≤ b) : |u| ≤ b + e := by
  have h : |u - v + v| ≤ |u - v| + |v| := abs_add (u - v) v
  rw [sub_add_cancel] at h
  linarith

theorem abs_mul_le_of_le (u v b e : ℚ) (hu : |u| ≤ b) (hv : |v| ≤ e) : |u * v| ≤ b * e := by
  rw [abs_mul]
  exact mul_le_mul hu hv (abs_nonneg v) (le_trans (abs_nonneg u) hu)

theorem abs_div_le_of_le (w c e : ℚ) (hc : 9 / 100 ≤ c) (hw : |w| ≤ e) :
    |w / c| ≤ e * (100 / 9) := by
  have hcpos : 0 < c := by linarith
  rw [abs_div, abs_of_pos hcpos, div_le_iff₀ hcpos]
  have h0 := abs_nonneg w
  nlinarith

theorem position_round_trip (x : ℚ) (hx : |x| ≤ 10 ^ 6) :
    |toFixed (jsDiv (jsMul (parseFloat x) CM_TO_UNIT_SCALE) CM_TO_UNIT_SCALE) 1 - x|
      ≤ 1 / 10 := by
  unfold jsDiv jsMul parseFloat
  rw [toDouble_CM_TO_UNIT_SCALE]
  have hc1 : (9 : ℚ) / 100 ≤ 3602879701896397 / 36028797018963968 := by norm_num
  have hc2 : |(3602879701896397 : ℚ) / 36028797018963968| ≤ 11 / 100 := by
    rw [abs_of_pos (by norm_num)]
    norm_num
  generalize (3602879701896397 : ℚ) / 36028797018963968 = c at hc1 hc2 ⊢
  have h0 : |toDouble x - x| ≤ 2 / 10 ^ 9 := toDouble_close x (by linarith)
  have b0 := abs_le_add_of_close _ _ _ _ h0 hx
  generalize toDouble x = x0 at h0 b0 ⊢
  have h1 : |toDouble x0 - x0| ≤ 2 / 10 ^ 9 := toDouble_close x0 (by linarith)
  have b1 := abs_le_add_of_close _ _ _ _ h1 b0
  generalize toDouble x0 = a at h1 b1 ⊢
  have m2 := abs_mul_le_of_le a c _ _ b1 hc2
  have h2 : |toDouble (a * c) - a * c| ≤ 2 / 10 ^ 9 := toDouble_close _ (by linarith)
  have b2 := abs_le_add_of_close _ _ _ _ h2 m2
  generalize toDouble (a * c) = y at h2 b2 ⊢
  have h3 : |toDouble y - y| ≤ 2 / 10 ^ 9 := toDouble_close y (by linarith)
  have b3 := abs_le_add_of_close _ _ _ _ h3 b2
  generalize toDouble y = y1 at h3 b3 ⊢
  have m4 := abs_div_le_of_le y1 c _ hc1 b3
  have h4 : |toDouble (y1 / c) - y1 / c| ≤ 2 / 10 ^ 9 := toDouble_close _ (by linarith)
  generalize toDouble (y1 / c) = z at h4 ⊢
  have hf := toFixed_abs_sub_le z 1
  have hcpos : 0 < c := by linarith
  have e : z - x = (z - y1 / c) + ((y1 - y) + (y - a * c)) / c + (a - x0) + (x0 - x) := by
    field_simp
    ring
  have h5 : |(y1 - y) + (y - a * c)| ≤ 2 / 10 ^ 9 + 2 / 10 ^ 9 :=
    le_trans (abs_add _ _) (add_le_add h3 h2)
  have m5 := abs_div_le_of_le _ c _ hc1 h5
  rw [abs_le] at h0 h1 h4 m5 hf ⊢
  norm_num at hf
  constructor <;> linarith

theorem rotation_round_trip (r : ℚ) (hr : |r| ≤ 10 ^ 6) :
    |toFixed (radToDeg (degToRad (parseFloat r))) 0 - r| ≤ 1 := by
  unfold radToDeg degToRad jsMul parseFloat
  rw [toDouble_DEG2RAD, toDouble_RAD2DEG]
  have hd : |(5030569068109113 : ℚ) / 288230376151711744| ≤ 175 / 10000 := by
    rw [abs_of_pos (by norm_num)]
    norm_num
  have hR : |(1007958012753983 : ℚ) / 17592186044416| ≤ 573 / 10 := by
    rw [abs_of_pos (by norm_num)]
    norm_num
  have hdR : |(5030569068109113 : ℚ) / 288230376151711744
      * (1007958012753983 / 17592186044416) - 1| ≤ 1 / 10 ^ 15 := by
    rw [abs_le]
    constructor <;> norm_num
  generalize (5030569068109113 : ℚ) / 288230376151711744 = d at hd hdR ⊢
  generalize (1007958012753983 : ℚ) / 17592186044416 = R at hR hdR ⊢
  have h0 : |toDouble r - r| ≤ 2 / 10 ^ 9 := toDouble_close r (by linarith)
  have b0 := abs_le_add_of_close _ _ _ _ h0 hr
  generalize toDouble r = r0 at h0 b0 ⊢
  have h1 : |toDouble r0 - r0| ≤ 2 / 10 ^ 9 := toDouble_close r0 (by linarith)
  have b1 := abs_le_add_of_close _ _ _ _ h1 b0
  generalize toDouble r0 = a at h1 b1 ⊢
  have m2 := abs_mul_le_of_le a d _ _ b1 hd
  have h2 : |toDouble (a * d) - a * d| ≤ 2 / 10 ^ 9 := toDouble_close _ (by linarith)
  have b2 := abs_le_add_of_close _ _ _ _ h2 m2
  generalize toDouble (a * d) = t at h2 b2 ⊢
  have h3 : |toDouble t - t| ≤ 2 / 10 ^ 9 := toDouble_close t (by linarith)
  have b3 := abs_le_add_of_close _ _ _ _ h3 b2
  generalize toDouble t = t1 at h3 b3 ⊢
  have m4 := abs_mul_le_of_le t1 R _ _ b3 hR
  have h4 : |toDouble (t1 * R) - t1 * R| ≤ 2 / 10 ^ 9 := toDouble_close _ (by linarith)
  generalize toDouble (t1 * R) = w at h4 ⊢
  have hf := toFixed_abs_sub_le w 0
  have e : w - r = (w - t1 * R) + (t1 - t) * R + (t - a * d) * R + a * (d * R - 1)
      + (a - r0) + (r0 - r) := by ring
  have m5 := abs_mul_le_of_le _ R _ _ h3 hR
  have m6 := abs_mul_le_of_le _ R _ _ h2 hR
  have m7 := abs_mul_le_of_le a (d * R - 1) _ _ b1 hdR
  rw [abs_le] at h0 h1 h4 m5 m6 m7 hf ⊢
  norm_num at hf
  constructor <;> linarith

theorem scale_round_trip (s : ℚ) (hs : |s| ≤ 10 ^ 6) :
    |toFixed (parseFloat s) 2 - s| ≤ 1 / 100 := by
  unfold parseFloat
  have h0 : |toDouble s - s| ≤ 2 / 10 ^ 9 := toDouble_close s (by linarith)
  have hf := toFixed_abs_sub_le (toDouble s) 2
  rw [abs_le] at h0 hf ⊢
  norm_num at hf
  constructor <;> linarith

theorem toFixed_one_close (x : ℚ) : |toFixed x 1 - x| ≤ 1 / 10 := by
  have h := toFixed_abs_sub_le x 1
  norm_num at h
  linarith

theorem toFixed_zero_close (x : ℚ) : |toFixed x 0 - x| ≤ 1 := by
  have h := toFixed_abs_sub_le x 0
  norm_num at h
  linarith

theorem toFixed_two_close (x : ℚ) : |toFixed x 2 - x| ≤ 1 / 100 := by
  have h := toFixed_abs_sub_le x 2
  norm_num at h
  linarith

/-! ## Facts about the sampler -/

theorem sampleCoord_inside_iff (ndc : ℚ × ℚ) :
    (0 ≤ (sampleCoord ndc).1 ∧ (sampleCoord ndc).1 ≤ 1
      ∧ 0 ≤ (sampleCoord ndc).2 ∧ (sampleCoord ndc).2 ≤ 1)
    ↔ (-1 ≤ ndc.1 ∧ ndc.1 ≤ 1 ∧ -1 ≤ ndc.2 ∧ ndc.2 ≤ 1) := by
  unfold sampleCoord
  dsimp only
  constructor
  · rintro ⟨h1, h2, h3, h4⟩
    refine ⟨?_, ?_, ?_, ?_⟩ <;> linarith
  · rintro ⟨h1, h2, h3, h4⟩
    refine ⟨?_, ?_, ?_, ?_⟩ <;> linarith

/-! ## The claims -/

/-- C1, as stated, fails: at 0.25 cm and 127 dpi the exact value of
`w / 2.54 * d` is 12.5, whose rounding is 13, and the double that
`(w / 2.54) * d` evaluates to lies just below 12.5, so the code allocates a
target 12 pixels wide and high. -/
theorem exportHighResImage_size_differs_from_exact_rounding :
    (exportHighResImage Host.ok Renderer.initial ⟨none, false, false⟩ ⟨4, 3, 32, 32⟩
        (1 / 4) (1 / 4) 127).renderTarget = ⟨12, 12⟩
    ∧ (1 / 4 : ℚ) / (254 / 100) * 127 = 25 / 2
    ∧ ⌊(1 / 4 : ℚ) / (254 / 100) * 127 + 1 / 2⌋ = 13
    ∧ (exportHighResImage Host.ok Renderer.initial ⟨none, false, false⟩ ⟨4, 3, 32, 32⟩
        (1 / 4) (1 / 4) 127).renderTarget.width ≠ ⌊(1 / 4 : ℚ) / (254 / 100) * 127 + 1 / 2⌋ := by
  rw [exportHighResImage_renderTarget, pixels_quarter_127]
  refine ⟨rfl, by norm_num, by norm_num, ?_⟩
  norm_num

/-- C1, amended: for every paper width `w` cm, height `h` cm and dpi `d`, the
render target that `exportHighResImage` allocates is `Math.round` of the double
that `(w / 2.54) * d` evaluates to by `Math.round` of the double that
`(h / 2.54) * d` evaluates to: each is the integer nearest to that double
(within one half, a tie going up, not the truncation); 40 cm × 30 cm at 300 dpi
gives 4724 × 3543 and 20 cm × 20 cm at 150 dpi gives 1181 × 1181. -/
theorem exportHighResImage_output_size (host : Host) (renderer : Renderer)
    (paperMaterial : ShaderMaterial) (geometry : PlaneGeometry) (w h d : ℚ) :
    ((exportHighResImage host renderer paperMaterial geometry w h d).renderTarget.width
        = ⌊jsMul (jsDiv w (254 / 100)) d + 1 / 2⌋
      ∧ (exportHighResImage host renderer paperMaterial geometry w h d).renderTarget.height
        = ⌊jsMul (jsDiv h (254 / 100)) d + 1 / 2⌋)
    ∧ (jsMul (jsDiv w (254 / 100)) d - 1 / 2
        < (exportHighResImage host renderer paperMaterial geometry w h d).renderTarget.width
      ∧ ((exportHighResImage host renderer paperMaterial geometry w h d).renderTarget.width : ℚ)
        ≤ jsMul (jsDiv w (254 / 100)) d + 1 / 2
      ∧ jsMul (jsDiv h (254 / 100)) d - 1 / 2
        < (exportHighResImage host renderer paperMaterial geometry w h d).renderTarget.height
      ∧ ((exportHighResImage host renderer paperMaterial geometry w h d).renderTarget.height : ℚ)
        ≤ jsMul (jsDiv h (254 / 100)) d + 1 / 2)
    ∧ (exportHighResImage host renderer paperMaterial geometry 40 30 300).renderTarget
        = ⟨4724, 3543⟩
    ∧ (exportHighResImage host renderer paperMaterial geometry 20 20 150).renderTarget
        = ⟨1181, 1181⟩ := by
  simp only [exportHighResImage_renderTarget, pixels_40_300, pixels_30_300, pixels_20_150]
  simp only [INCH_TO_CM]
  refine ⟨⟨rfl, rfl⟩, ⟨?_, ?_, ?_, ?_⟩, trivial, trivial⟩
  · exact lt_mathRound _
  · exact mathRound_le _
  · exact lt_mathRound _
  · exact mathRound_le _

/-- C2, as stated, fails: a paper of 0.01 cm × 0.01 cm at 1 dpi has positive
width, height and dpi, and both computed pixel dimensions are 0; so has a paper
of 0.5 cm × 0.5 cm at 2.54 dpi, where the double product lies just below one
half. -/
theorem exportHighResImage_size_zero_for_positive_input :
    (0 : ℚ) < 1 / 100 ∧ (0 : ℚ) < 1
    ∧ (exportHighResImage Host.ok ⟨none, 0, 1, []⟩ ⟨none, false, false⟩ ⟨4, 3, 32, 32⟩
        (1 / 100) (1 / 100) 1).renderTarget = ⟨0, 0⟩
    ∧ ¬ (1 ≤ (exportHighResImage Host.ok ⟨none, 0, 1, []⟩ ⟨none, false, false⟩ ⟨4, 3, 32, 32⟩
        (1 / 100) (1 / 100) 1).renderTarget.width)
    ∧ ¬ (1 ≤ (exportHighResImage Host.ok ⟨none, 0, 1, []⟩ ⟨none, false, false⟩ ⟨4, 3, 32, 32⟩
        (1 / 100) (1 / 100) 1).renderTarget.height)
    ∧ (exportHighResImage Host.ok ⟨none, 0, 1, []⟩ ⟨none, false, false⟩ ⟨4, 3, 32, 32⟩
        (1 / 2) (1 / 2) (254 / 100)).renderTarget = ⟨0, 0⟩ := by
  refine ⟨by norm_num, by norm_num, ?_⟩
  simp only [exportHighResImage_renderTarget, pixels_hundredth_1, pixels_half_254]
  norm_num

/-- C2, amended: for all width, height and dpi greater than 0 the computed
pixel width and height are at least 0, and each is at least 1 exactly when the
double that `(cm / 2.54) * dpi` evaluates to is at least one half. -/
theorem exportHighResImage_size_lower_bound (host : Host) (renderer : Renderer)
    (paperMaterial : ShaderMaterial) (geometry : PlaneGeometry) (w h d : ℚ)
    (hw : 0 < w) (hh : 0 < h) (hd : 0 < d) :
    0 ≤ (exportHighResImage host renderer paperMaterial geometry w h d).renderTarget.width
    ∧ 0 ≤ (exportHighResImage host renderer paperMaterial geometry w h d).renderTarget.height
    ∧ (1 ≤ (exportHighResImage host renderer paperMaterial geometry w h d).renderTarget.width
        ↔ 1 / 2 ≤ jsMul (jsDiv w (254 / 100)) d)
    ∧ (1 ≤ (exportHighResImage host renderer paperMaterial geometry w h d).renderTarget.height
        ↔ 1 / 2 ≤ jsMul (jsDiv h (254 / 100)) d) := by
  simp only [exportHighResImage_renderTarget]
  refine ⟨?_, ?_, ?_, ?_⟩
  · exact mathRound_nonneg _ (jsMul_jsDiv_nonneg w d hw.le hd.le)
  · exact mathRound_nonneg _ (jsMul_jsDiv_nonneg h d hh.le hd.le)
  · simpa only [INCH_TO_CM] using one_le_mathRound_iff (jsMul (jsDiv w INCH_TO_CM) d)
  · simpa only [INCH_TO_CM] using one_le_mathRound_iff (jsMul (jsDiv h INCH_TO_CM) d)

/-- Witness of the amended C2 at 40 cm × 30 cm and 300 dpi. -/
theorem exportHighResImage_size_lower_bound_witness :
    0 ≤ (exportHighResImage Host.ok ⟨none, 0, 1, []⟩ ⟨none, false, false⟩ ⟨4, 3, 32, 32⟩
        40 30 300).renderTarget.width
    ∧ 0 ≤ (exportHighResImage Host.ok ⟨none, 0, 1, []⟩ ⟨none, false, false⟩ ⟨4, 3, 32, 32⟩
        40 30 300).renderTarget.height
    ∧ (1 ≤ (exportHighResImage Host.ok ⟨none, 0, 1, []⟩ ⟨none, false, false⟩ ⟨4, 3, 32, 32⟩
        40 30 300).renderTarget.width ↔ (1 : ℚ) / 2 ≤ jsMul (jsDiv 40 (254 / 100)) 300)
    ∧ (1 ≤ (exportHighResImage Host.ok ⟨none, 0, 1, []⟩ ⟨none, false, false⟩ ⟨4, 3, 32, 32⟩
        40 30 300).renderTarget.height ↔ (1 : ℚ) / 2 ≤ jsMul (jsDiv 30 (254 / 100)) 300) :=
  exportHighResImage_size_lower_bound Host.ok ⟨none, 0, 1, []⟩ ⟨none, false, false⟩
    ⟨4, 3, 32, 32⟩ 40 30 300 (by norm_num) (by norm_num) (by norm_num)

/-- C3, as stated, fails: with an image loaded and the width field changed to
0, `exportImage` shows no alert; the run allocates a 0 × 3543 target, binds it,
clears, renders and changes the clear colour, and only the canvas part at the
end throws. -/
theorem exportImage_zero_width_allocates_and_renders :
    (run (App.initial examplePage)
        [Action.imageLoaded ⟨640, 480⟩, Action.paperWidthChange 0]).dom.paperWidth = 0
    ∧ (run (App.initial examplePage)
        [Action.imageLoaded ⟨640, 480⟩, Action.paperWidthChange 0]).renderer = Renderer.initial
    ∧ (exportImage ⟨false, false, true⟩ (run (App.initial examplePage)
        [Action.imageLoaded ⟨640, 480⟩, Action.paperWidthChange 0])).renderer.calls
      = [GLCall.setRenderTarget (some ⟨0, 3543⟩), GLCall.setClearColor 0xffffff 1, GLCall.clear,
         GLCall.render ⟨4, 3, 32, 32⟩ true ⟨0, 0, 3 / 2, -3 / 2, 1 / 10, 10, 1⟩,
         GLCall.setRenderTarget none, GLCall.setClearColor 0x282c34 1,
         GLCall.readRenderTargetPixels ⟨0, 3543⟩ 0 0 0 3543]
    ∧ (exportImage ⟨false, false, true⟩ (run (App.initial examplePage)
        [Action.imageLoaded ⟨640, 480⟩, Action.paperWidthChange 0])).renderer.clearColor
      = 0x282c34
    ∧ (exportImage ⟨false, false, true⟩ (run (App.initial examplePage)
        [Action.imageLoaded ⟨640, 480⟩, Action.paperWidthChange 0])).notices
      = [Notice.uncaught "encode"] := by
  simp [run, step, updatePaper, exportImage, loadTexture, App.initial, updatePaperSize,
    updateUIFromProjection, examplePage, exportHighResImage, ExportOutcome.notice,
    Renderer.initial, Renderer.setRenderTarget, Renderer.setClearColor, Renderer.clear,
    Renderer.render, Renderer.readRenderTargetPixels, Renderer.getRenderTarget, pixels_zero,
    pixels_30_300, CM_TO_UNIT_SCALE]
  norm_num

/-- C3, amended: export fails fast only when no image is loaded, and then
`exportImage` shows the alert and changes nothing else. The width, height and
dpi are not validated: with an image loaded, for all values of the three
fields, positive or not, `exportImage` runs `exportHighResImage` on them, which
allocates a target of the computed size, binds it, sets the clear colour to
white and clears before anything else, and no alert is shown. -/
theorem exportImage_validates_image_only (host : Host) (s : App) :
    (s.projectionTexture = none →
      exportImage host s = { s with notices := s.notices ++ [Notice.alert noImageMessage] })
    ∧ (∀ texture flat, s.projectionTexture = some texture → s.flatPaperObject = some flat →
        (exportImage host s).renderer
          = (exportHighResImage host s.renderer s.paperMaterial flat.geometry
              s.dom.paperWidth s.dom.paperHeight s.dom.exportDpi).renderer
        ∧ (∃ rest, (exportImage host s).renderer.calls
            = s.renderer.calls
              ++ [GLCall.setRenderTarget
                    (some ⟨mathRound (jsMul (jsDiv s.dom.paperWidth INCH_TO_CM) s.dom.exportDpi),
                      mathRound (jsMul (jsDiv s.dom.paperHeight INCH_TO_CM) s.dom.exportDpi)⟩),
                  GLCall.setClearColor 0xffffff 1, GLCall.clear]
              ++ rest)
        ∧ (∃ n, (exportImage host s).notices = s.notices ++ [n]
            ∧ ∀ message, n ≠ Notice.alert message)) := by
  constructor
  · intro hno
    unfold exportImage
    rw [hno]
    rfl
  · intro texture flat htex hflat
    have he : exportImage host s
        = { s with
            renderer := (exportHighResImage host s.renderer s.paperMaterial flat.geometry
              s.dom.paperWidth s.dom.paperHeight s.dom.exportDpi).renderer,
            paperMaterial := (exportHighResImage host s.renderer s.paperMaterial flat.geometry
              s.dom.paperWidth s.dom.paperHeight s.dom.exportDpi).paperMaterial,
            notices := s.notices ++ [(exportHighResImage host s.renderer s.paperMaterial
              flat.geometry s.dom.paperWidth s.dom.paperHeight s.dom.exportDpi).outcome.notice] } := by
      unfold exportImage
      rw [htex, hflat]
      rfl
    rw [he]
    refine ⟨rfl, ?_, ⟨_, rfl, ExportOutcome.notice_ne_alert _⟩⟩
    exact exportHighResImage_calls_prefix host s.renderer s.paperMaterial flat.geometry
      s.dom.paperWidth s.dom.paperHeight s.dom.exportDpi

/-- Witness of the amended C3: the state after `init()` for the first part, and
the state with an image loaded and the width field at 0 for the second. -/
theorem exportImage_validates_image_only_witness :
    exportImage Host.ok (App.initial examplePage)
      = { App.initial examplePage with
          notices := (App.initial examplePage).notices ++ [Notice.alert noImageMessage] }
    ∧ ∃ n, (exportImage Host.ok (run (App.initial examplePage)
          [Action.imageLoaded ⟨640, 480⟩, Action.paperWidthChange 0])).notices
        = (run (App.initial examplePage)
          [Action.imageLoaded ⟨640, 480⟩, Action.paperWidthChange 0]).notices ++ [n]
      ∧ ∀ message, n ≠ Notice.alert message :=
  ⟨(exportImage_validates_image_only Host.ok (App.initial examplePage)).1 rfl,
   ((exportImage_validates_image_only Host.ok (run (App.initial examplePage)
      [Action.imageLoaded ⟨640, 480⟩, Action.paperWidthChange 0])).2
      ⟨640, 480⟩ ⟨2, ⟨4, 3, 32, 32⟩, false⟩ rfl
      (by
        simp [run, step, updatePaper, loadTexture, App.initial, updatePaperSize,
          updateUIFromProjection, examplePage, CM_TO_UNIT_SCALE]
        norm_num)).2.2⟩

/-- C4: for every width `w` cm and height `h` cm the capture camera of
`exportHighResImage` has left `-(w*0.1)/2`, right `(w*0.1)/2`, top `(h*0.1)/2`
and bottom `-(h*0.1)/2`: it is centred on the origin, `w*0.1` wide and `h*0.1`
high, and these are the bounds of the paper geometry that `updatePaperSize`
builds for `w` and `h` with the scale 0.1. -/
theorem exportHighResImage_camera_bounds (host : Host) (renderer : Renderer)
    (paperMaterial : ShaderMaterial) (geometry : PlaneGeometry) (w h d : ℚ) (s : App) :
    ((exportHighResImage host renderer paperMaterial geometry w h d).exportCamera.left
        = -(w * (1 / 10)) / 2
      ∧ (exportHighResImage host renderer paperMaterial geometry w h d).exportCamera.right
        = (w * (1 / 10)) / 2
      ∧ (exportHighResImage host renderer paperMaterial geometry w h d).exportCamera.top
        = (h * (1 / 10)) / 2
      ∧ (exportHighResImage host renderer paperMaterial geometry w h d).exportCamera.bottom
        = -(h * (1 / 10)) / 2)
    ∧ ((exportHighResImage host renderer paperMaterial geometry w h d).exportCamera.right
        - (exportHighResImage host renderer paperMaterial geometry w h d).exportCamera.left
        = w * (1 / 10)
      ∧ (exportHighResImage host renderer paperMaterial geometry w h d).exportCamera.top
        - (exportHighResImage host renderer paperMaterial geometry w h d).exportCamera.bottom
        = h * (1 / 10)
      ∧ (exportHighResImage host renderer paperMaterial geometry w h d).exportCamera.left
        + (exportHighResImage host renderer paperMaterial geometry w h d).exportCamera.right = 0
      ∧ (exportHighResImage host renderer paperMaterial geometry w h d).exportCamera.top
        + (exportHighResImage host renderer paperMaterial geometry w h d).exportCamera.bottom
        = 0)
    ∧ (updatePaperSize s w h).flatPaperObject.map (fun m =>
        (m.geometry.xMin, m.geometry.xMax, m.geometry.yMax, m.geometry.yMin))
      = some ((exportHighResImage host renderer paperMaterial geometry w h d).exportCamera.left,
          (exportHighResImage host renderer paperMaterial geometry w h d).exportCamera.right,
          (exportHighResImage host renderer paperMaterial geometry w h d).exportCamera.top,
          (exportHighResImage host renderer paperMaterial geometry w h d).exportCamera.bottom) := by
  rw [exportHighResImage_exportCamera]
  refine ⟨⟨rfl, rfl, rfl, rfl⟩, ⟨?_, ?_, ?_, ?_⟩, ?_⟩
  · show (w * (1 / 10)) / 2 - -(w * (1 / 10)) / 2 = w * (1 / 10)
    ring
  · show (h * (1 / 10)) / 2 - -(h * (1 / 10)) / 2 = h * (1 / 10)
    ring
  · show -(w * (1 / 10)) / 2 + (w * (1 / 10)) / 2 = 0
    ring
  · show (h * (1 / 10)) / 2 + -(h * (1 / 10)) / 2 = 0
    ring
  · show some (-(w * CM_TO_UNIT_SCALE / 2), w * CM_TO_UNIT_SCALE / 2,
        h * CM_TO_UNIT_SCALE / 2, -(h * CM_TO_UNIT_SCALE / 2))
      = some (-(w * (1 / 10)) / 2, (w * (1 / 10)) / 2, (h * (1 / 10)) / 2, -(h * (1 / 10)) / 2)
    rw [CM_TO_UNIT_SCALE, neg_div, neg_div]

/-- C5: for every surface point whose coordinate, after the projection, view
and model matrices and the divide by `w`, lies outside [-1,1] on either axis,
the sample coordinate lies outside [0,1]×[0,1], the sampler does not sample the
source image, and it outputs the background, which is fully transparent in the
interactive pass. -/
theorem projectiveSampler_outside_frustum (image : ℚ × ℚ → Color) (isExporting : Bool)
    (proj view model : Mat4) (pLocal : Vec4)
    (hout : (ndcCoord (clipCoord proj view model pLocal)).1 < -1
      ∨ 1 < (ndcCoord (clipCoord proj view model pLocal)).1
      ∨ (ndcCoord (clipCoord proj view model pLocal)).2 < -1
      ∨ 1 < (ndcCoord (clipCoord proj view model pLocal)).2) :
    ¬ (0 ≤ (sampleCoord (ndcCoord (clipCoord proj view model pLocal))).1
        ∧ (sampleCoord (ndcCoord (clipCoord proj view model pLocal))).1 ≤ 1
        ∧ 0 ≤ (sampleCoord (ndcCoord (clipCoord proj view model pLocal))).2
        ∧ (sampleCoord (ndcCoord (clipCoord proj view model pLocal))).2 ≤ 1)
    ∧ sampleAt proj view model pLocal = none
    ∧ projectiveSampler image isExporting proj view model pLocal = backgroundColor isExporting
    ∧ projectiveSampler image false proj view model pLocal = Color.transparent
    ∧ (projectiveSampler image false proj view model pLocal).a = 0 := by
  have hnot : ¬ (0 ≤ (sampleCoord (ndcCoord (clipCoord proj view model pLocal))).1
      ∧ (sampleCoord (ndcCoord (clipCoord proj view model pLocal))).1 ≤ 1
      ∧ 0 ≤ (sampleCoord (ndcCoord (clipCoord proj view model pLocal))).2
      ∧ (sampleCoord (ndcCoord (clipCoord proj view model pLocal))).2 ≤ 1) := by
    rw [sampleCoord_inside_iff]
    rintro ⟨h1, h2, h3, h4⟩
    rcases hout with h | h | h | h <;> linarith
  have hnone : sampleAt proj view model pLocal = none := by
    unfold sampleAt
    dsimp only
    rw [if_neg hnot]
  have hcol : ∀ flag, projectiveSampler image flag proj view model pLocal
      = backgroundColor flag := by
    intro flag
    unfold projectiveSampler
    rw [hnone]
  refine ⟨hnot, hnone, hcol _, ?_, ?_⟩
  · rw [hcol]
    rfl
  · rw [hcol]
    rfl

/-- Witness of C5: with identity matrices the point (2, 0, 0) maps to x = 2,
outside [-1,1], and an all-white image gives a transparent result there. -/
theorem projectiveSampler_outside_frustum_witness :
    ((ndcCoord (clipCoord Mat4.identity Mat4.identity Mat4.identity ⟨2, 0, 0, 1⟩)).1 < -1
      ∨ 1 < (ndcCoord (clipCoord Mat4.identity Mat4.identity Mat4.identity ⟨2, 0, 0, 1⟩)).1
      ∨ (ndcCoord (clipCoord Mat4.identity Mat4.identity Mat4.identity ⟨2, 0, 0, 1⟩)).2 < -1
      ∨ 1 < (ndcCoord (clipCoord Mat4.identity Mat4.identity Mat4.identity ⟨2, 0, 0, 1⟩)).2)
    ∧ projectiveSampler (fun _ => Color.white) false Mat4.identity Mat4.identity Mat4.identity
        ⟨2, 0, 0, 1⟩ = Color.transparent :=
  have hout : (ndcCoord (clipCoord Mat4.identity Mat4.identity Mat4.identity ⟨2, 0, 0, 1⟩)).1 < -1
      ∨ 1 < (ndcCoord (clipCoord Mat4.identity Mat4.identity Mat4.identity ⟨2, 0, 0, 1⟩)).1
      ∨ (ndcCoord (clipCoord Mat4.identity Mat4.identity Mat4.identity ⟨2, 0, 0, 1⟩)).2 < -1
      ∨ 1 < (ndcCoord (clipCoord Mat4.identity Mat4.identity Mat4.identity ⟨2, 0, 0, 1⟩)).2 := by
    right
    left
    simp [ndcCoord, clipCoord, Mat4.mulVec, Vec4.dot, Mat4.identity]
  ⟨hout, (projectiveSampler_outside_frustum (fun _ => Color.white) false Mat4.identity
    Mat4.identity Mat4.identity ⟨2, 0, 0, 1⟩ hout).2.2.2.1⟩

/-- C6: for every renderer state, when `exportHighResImage` has run to
completion the render target bound in the renderer is the one that was bound
immediately before the call. -/
theorem exportHighResImage_restores_renderTarget (host : Host) (renderer : Renderer)
    (paperMaterial : ShaderMaterial) (geometry : PlaneGeometry) (w h d : ℚ)
    (hdone : (exportHighResImage host renderer paperMaterial geometry w h d).outcome.isCompleted
      = true) :
    (exportHighResImage host renderer paperMaterial geometry w h d).renderer.renderTarget
      = renderer.renderTarget :=
  (exportHighResImage_after_render host renderer paperMaterial geometry w h d
    ((exportHighResImage_completed_iff host renderer paperMaterial geometry w h d).mp hdone).1).1

/-- Witness of C6: a run that completes, started with an offscreen target of
16 × 16 bound, ends with that target bound. -/
theorem exportHighResImage_restores_renderTarget_witness :
    (exportHighResImage Host.ok ⟨some ⟨16, 16⟩, 0, 1, []⟩ ⟨none, false, false⟩ ⟨4, 3, 32, 32⟩
        40 30 300).outcome.isCompleted = true
    ∧ (exportHighResImage Host.ok ⟨some ⟨16, 16⟩, 0, 1, []⟩ ⟨none, false, false⟩ ⟨4, 3, 32, 32⟩
        40 30 300).renderer.renderTarget = some ⟨16, 16⟩ :=
  ⟨by simp [exportHighResImage_completed_iff, Host.ok],
   exportHighResImage_restores_renderTarget Host.ok ⟨some ⟨16, 16⟩, 0, 1, []⟩
     ⟨none, false, false⟩ ⟨4, 3, 32, 32⟩ 40 30 300
     (by simp [exportHighResImage_completed_iff, Host.ok])⟩

/-- C7 at the failing input: the first export after `init()` and an image load
completes, and the renderer that cleared to 0x000000 before the call clears to
0x282c34 after it. -/
theorem exportImage_changes_clearColor :
    (loadTexture (App.initial examplePage) ⟨640, 480⟩).renderer.clearColor = 0x000000
    ∧ (exportImage Host.ok (loadTexture (App.initial examplePage) ⟨640, 480⟩)).notices
        = [Notice.download "anamorphosis_export.png" 4724 3543]
    ∧ (exportImage Host.ok (loadTexture (App.initial examplePage) ⟨640, 480⟩)).renderer.clearColor
        = 0x282c34
    ∧ (exportImage Host.ok (loadTexture (App.initial examplePage) ⟨640, 480⟩)).renderer.clearColor
        ≠ (loadTexture (App.initial examplePage) ⟨640, 480⟩).renderer.clearColor := by
  simp [exportImage, loadTexture, App.initial, updatePaperSize, updateUIFromProjection,
    examplePage, exportHighResImage, Host.ok, ExportOutcome.notice, Renderer.setRenderTarget,
    Renderer.setClearColor, Renderer.clear, Renderer.render, Renderer.readRenderTargetPixels,
    Renderer.getRenderTarget, pixels_40_300, pixels_30_300]

/-- C8, as stated, fails: when the capture render throws, the run ends with the
offscreen target still bound and `u_isExporting` still true, where the canvas
was bound and the flag was false before the call. -/
theorem exportHighResImage_render_throw_keeps_export_configuration :
    (exportHighResImage ⟨true, false, false⟩ Renderer.initial ⟨none, false, false⟩
        ⟨4, 3, 32, 32⟩ 40 30 300).outcome = .threw .render
    ∧ Renderer.initial.renderTarget = none
    ∧ (exportHighResImage ⟨true, false, false⟩ Renderer.initial ⟨none, false, false⟩
        ⟨4, 3, 32, 32⟩ 40 30 300).renderer.renderTarget = some ⟨4724, 3543⟩
    ∧ (exportHighResImage ⟨true, false, false⟩ Renderer.initial ⟨none, false, false⟩
        ⟨4, 3, 32, 32⟩ 40 30 300).renderer.renderTarget ≠ Renderer.initial.renderTarget
    ∧ (exportHighResImage ⟨true, false, false⟩ Renderer.initial ⟨none, false, false⟩
        ⟨4, 3, 32, 32⟩ 40 30 300).paperMaterial.u_isExporting = true := by
  have h := exportHighResImage_render_throws ⟨true, false, false⟩ Renderer.initial
    ⟨none, false, false⟩ ⟨4, 3, 32, 32⟩ 40 30 300 rfl
  have ht : (⟨mathRound (jsMul (jsDiv 40 INCH_TO_CM) 300), mathRound (jsMul (jsDiv 30 INCH_TO_CM) 300)⟩ :
      WebGLRenderTarget) = ⟨4724, 3543⟩ := by
    rw [pixels_40_300, pixels_30_300]
  rw [ht] at h
  refine ⟨h.1, rfl, h.2.1, ?_, h.2.2.2⟩
  rw [h.2.1]
  simp [Renderer.initial]

/-- C8, amended: the restore step runs when the capture render returns, and
then `exportHighResImage` leaves the render target that was bound before the
call and `u_isExporting` false, whatever fails later; when the capture render
throws, the offscreen target stays bound and `u_isExporting` stays true. -/
theorem exportHighResImage_restore_after_render (host : Host) (renderer : Renderer)
    (paperMaterial : ShaderMaterial) (geometry : PlaneGeometry) (w h d : ℚ) :
    (host.renderThrows = false →
      (exportHighResImage host renderer paperMaterial geometry w h d).renderer.renderTarget
          = renderer.renderTarget
      ∧ (exportHighResImage host renderer paperMaterial geometry w h d).paperMaterial.u_isExporting
          = false)
    ∧ (host.renderThrows = true →
      (exportHighResImage host renderer paperMaterial geometry w h d).renderer.renderTarget
          = some (exportHighResImage host renderer paperMaterial geometry w h d).renderTarget
      ∧ (exportHighResImage host renderer paperMaterial geometry w h d).paperMaterial.u_isExporting
          = true) := by
  constructor
  · intro hr
    have h1 := exportHighResImage_after_render host renderer paperMaterial geometry w h d hr
    exact ⟨h1.1, h1.2.2.2⟩
  · intro hr
    have h1 := exportHighResImage_render_throws host renderer paperMaterial geometry w h d hr
    rw [exportHighResImage_renderTarget]
    exact ⟨h1.2.1, h1.2.2.2⟩

/-- Witness of the amended C8: a run whose read-back throws after a render
that returned, and a run whose render throws. -/
theorem exportHighResImage_restore_after_render_witness :
    ((exportHighResImage ⟨false, true, false⟩ ⟨some ⟨16, 16⟩, 0, 1, []⟩ ⟨none, false, false⟩
        ⟨4, 3, 32, 32⟩ 40 30 300).renderer.renderTarget = some ⟨16, 16⟩
      ∧ (exportHighResImage ⟨false, true, false⟩ ⟨some ⟨16, 16⟩, 0, 1, []⟩ ⟨none, false, false⟩
        ⟨4, 3, 32, 32⟩ 40 30 300).paperMaterial.u_isExporting = false)
    ∧ ((exportHighResImage ⟨true, false, false⟩ ⟨some ⟨16, 16⟩, 0, 1, []⟩ ⟨none, false, false⟩
        ⟨4, 3, 32, 32⟩ 40 30 300).renderer.renderTarget
          = some (exportHighResImage ⟨true, false, false⟩ ⟨some ⟨16, 16⟩, 0, 1, []⟩
              ⟨none, false, false⟩ ⟨4, 3, 32, 32⟩ 40 30 300).renderTarget
      ∧ (exportHighResImage ⟨true, false, false⟩ ⟨some ⟨16, 16⟩, 0, 1, []⟩ ⟨none, false, false⟩
        ⟨4, 3, 32, 32⟩ 40 30 300).paperMaterial.u_isExporting = true) :=
  ⟨(exportHighResImage_restore_after_render ⟨false, true, false⟩ ⟨some ⟨16, 16⟩, 0, 1, []⟩
      ⟨none, false, false⟩ ⟨4, 3, 32, 32⟩ 40 30 300).1 rfl,
   (exportHighResImage_restore_after_render ⟨true, false, false⟩ ⟨some ⟨16, 16⟩, 0, 1, []⟩
      ⟨none, false, false⟩ ⟨4, 3, 32, 32⟩ 40 30 300).2 rfl⟩

/-- C9: in every state the page can be in with no image loaded, `exportImage`
shows the alert and changes nothing else (no run of `exportHighResImage`: the
renderer, with its bound target, clear colour and calls, and the material, with
its export flag, are as before), and `toggleBakeMode` shows the alert, leaves
`isBakeMode` false and changes nothing else (no bake, no change of
visibility). -/
theorem no_image_aborts (host : Host) (s : App) (hs : Reachable s)
    (hno : s.projectionTexture = none) :
    exportImage host s = { s with notices := s.notices ++ [Notice.alert noImageMessage] }
    ∧ (exportImage host s).renderer = s.renderer
    ∧ (exportImage host s).paperMaterial = s.paperMaterial
    ∧ toggleBakeMode host s = { s with notices := s.notices ++ [Notice.alert noImageMessage] }
    ∧ (toggleBakeMode host s).isBakeMode = false
    ∧ (toggleBakeMode host s).renderer = s.renderer
    ∧ (toggleBakeMode host s).bakedMap = s.bakedMap
    ∧ (toggleBakeMode host s).foldedObject = s.foldedObject
    ∧ (toggleBakeMode host s).flatPaperObject = s.flatPaperObject
    ∧ (toggleBakeMode host s).sceneChildren = s.sceneChildren := by
  have hbake : s.isBakeMode = false := by
    cases hb : s.isBakeMode with
    | false => rfl
    | true =>
      have := reachable_bakeNeedsImage s hs hb
      rw [hno] at this
      exact absurd this (by decide)
  have he : exportImage host s
      = { s with notices := s.notices ++ [Notice.alert noImageMessage] } := by
    unfold exportImage
    rw [hno]
    rfl
  have ht : toggleBakeMode host s
      = { s with notices := s.notices ++ [Notice.alert noImageMessage] } := by
    unfold toggleBakeMode
    dsimp only
    rw [hbake, hno]
    simp only [Bool.not_false, if_true, Option.isNone_none]
  rw [he, ht]
  exact ⟨rfl, rfl, rfl, rfl, hbake, rfl, rfl, rfl, rfl, rfl⟩

/-- Witness of C9: the state after `init()`, where no image is loaded yet. -/
theorem no_image_aborts_witness :
    exportImage Host.ok (App.initial examplePage)
      = { App.initial examplePage with
          notices := (App.initial examplePage).notices ++ [Notice.alert noImageMessage] }
    ∧ toggleBakeMode Host.ok (App.initial examplePage)
      = { App.initial examplePage with
          notices := (App.initial examplePage).notices ++ [Notice.alert noImageMessage] } :=
  have h := no_image_aborts Host.ok (App.initial examplePage) ⟨examplePage, [], rfl⟩ rfl
  ⟨h.1, h.2.2.2.1⟩

/-- C10, as stated, fails: with 2000000000000001 in the x position slider,
`updateProjectionFromUI` stores the double of `x * 0.1`, and
`updateUIFromProjection` writes `(x * 0.1) / 0.1`, which in doubles is
`x + 0.25`, as 2000000000000001.3: three tenths from the original. -/
theorem projector_position_round_trip_drifts :
    (updateUIFromProjection
        (updateProjectionFromUI farPage
          restingHelper)
        examplePage).projPos.x = 20000000000000013 / 10
    ∧ (1 : ℚ) / 10
      < |(updateUIFromProjection
          (updateProjectionFromUI farPage
            restingHelper)
          examplePage).projPos.x - 2000000000000001| := by
  have h : (updateUIFromProjection
      (updateProjectionFromUI farPage
        restingHelper)
      examplePage).projPos.x = 20000000000000013 / 10 := by
    simp only [updateUIFromProjection, updateProjectionFromUI, farPage, examplePage]
    exact position_round_trip_large
  refine ⟨h, ?_⟩
  rw [h, abs_of_pos (by norm_num)]
  norm_num

/-- C10, amended: for all position (cm), rotation (degrees) and scale values
between -1000000 and 1000000 held by the projector sliders, applying them with
`updateProjectionFromUI` and writing the transform of the object back with
`updateUIFromProjection`, into any page, gives slider values within 0.1 of the
original position, within 1 degree of the original rotation and within 0.01 of
the original scale on every axis, and every number input shows the value of its
slider. What a value typed into a number input does is left out. -/
theorem projector_controls_round_trip (dom page : Dom) (projectionHelper : ProjectionHelper)
    (hpos : dom.projPos.boundedBy (10 ^ 6)) (hrot : dom.projRot.boundedBy (10 ^ 6))
    (hscale : dom.projScale.boundedBy (10 ^ 6)) :
    |(updateUIFromProjection (updateProjectionFromUI dom projectionHelper) page).projPos.x
        - dom.projPos.x| ≤ 1 / 10
    ∧ |(updateUIFromProjection (updateProjectionFromUI dom projectionHelper) page).projPos.y
        - dom.projPos.y| ≤ 1 / 10
    ∧ |(updateUIFromProjection (updateProjectionFromUI dom projectionHelper) page).projPos.z
        - dom.projPos.z| ≤ 1 / 10
    ∧ |(updateUIFromProjection (updateProjectionFromUI dom projectionHelper) page).projRot.x
        - dom.projRot.x| ≤ 1
    ∧ |(updateUIFromProjection (updateProjectionFromUI dom projectionHelper) page).projRot.y
        - dom.projRot.y| ≤ 1
    ∧ |(updateUIFromProjection (updateProjectionFromUI dom projectionHelper) page).projRot.z
        - dom.projRot.z| ≤ 1
    ∧ |(updateUIFromProjection (updateProjectionFromUI dom projectionHelper) page).projScale.x
        - dom.projScale.x| ≤ 1 / 100
    ∧ |(updateUIFromProjection (updateProjectionFromUI dom projectionHelper) page).projScale.y
        - dom.projScale.y| ≤ 1 / 100
    ∧ |(updateUIFromProjection (updateProjectionFromUI dom projectionHelper) page).projScale.z
        - dom.projScale.z| ≤ 1 / 100
    ∧ (updateUIFromProjection (updateProjectionFromUI dom projectionHelper) page).projPosNum
        = (updateUIFromProjection (updateProjectionFromUI dom projectionHelper) page).projPos
    ∧ (updateUIFromProjection (updateProjectionFromUI dom projectionHelper) page).projRotNum
        = (updateUIFromProjection (updateProjectionFromUI dom projectionHelper) page).projRot
    ∧ (updateUIFromProjection (updateProjectionFromUI dom projectionHelper) page).projScaleNum
        = (updateUIFromProjection (updateProjectionFromUI dom projectionHelper) page).projScale := by
  obtain ⟨hpx, hpy, hpz⟩ := hpos
  obtain ⟨hrx, hry, hrz⟩ := hrot
  obtain ⟨hsx, hsy, hsz⟩ := hscale
  simp only [updateUIFromProjection, updateProjectionFromUI]
  exact ⟨position_round_trip _ (abs_le.mpr hpx), position_round_trip _ (abs_le.mpr hpy),
    position_round_trip _ (abs_le.mpr hpz), rotation_round_trip _ (abs_le.mpr hrx),
    rotation_round_trip _ (abs_le.mpr hry), rotation_round_trip _ (abs_le.mpr hrz),
    scale_round_trip _ (abs_le.mpr hsx), scale_round_trip _ (abs_le.mpr hsy),
    scale_round_trip _ (abs_le.mpr hsz), trivial, trivial, trivial⟩

/-- Witness of the amended C10: sliders at (12.5, -30, 0) cm, (-45, 90, 0)
degrees and scale (1, 1.5, 2), written back into the page of `examplePage`. -/
theorem projector_controls_round_trip_witness :
    slidersPage.projPos.boundedBy (10 ^ 6)
    ∧ |(updateUIFromProjection
          (updateProjectionFromUI
            slidersPage
            restingHelper)
          examplePage).projPos.x - 25 / 2| ≤ 1 / 10
    ∧ |(updateUIFromProjection
          (updateProjectionFromUI
            slidersPage
            restingHelper)
          examplePage).projRot.x - -45| ≤ 1 :=
  have hp : slidersPage.projPos.boundedBy (10 ^ 6) := by
    norm_num [Vec3.boundedBy, slidersPage, examplePage]
  have hr : slidersPage.projRot.boundedBy (10 ^ 6) := by
    norm_num [Vec3.boundedBy, slidersPage, examplePage]
  have hs : slidersPage.projScale.boundedBy (10 ^ 6) := by
    norm_num [Vec3.boundedBy, slidersPage, examplePage]
  have h := projector_controls_round_trip
    slidersPage
    examplePage restingHelper hp hr hs
  ⟨hp, h.1, h.2.2.2.1⟩

/-- C11 at the failing input: after `init()` a click on the paper attaches the
gizmo to the paper mesh (id 1); a change of the width field to 20 then rebuilds
the paper as mesh 3, and the gizmo is still attached to mesh 1, which is no
longer the paper surface and no longer a child of the scene. -/
theorem updatePaperSize_keeps_gizmo_on_discarded_paper :
    (run (App.initial examplePage) [Action.click ClickTarget.paper]).transformControls = some 1
    ∧ (run (App.initial examplePage) [Action.click ClickTarget.paper]).foldedObject
        = some ⟨1, ⟨4, 3, 32, 32⟩, true⟩
    ∧ (run (App.initial examplePage)
        [Action.click ClickTarget.paper, Action.paperWidthChange 20]).foldedObject
        = some ⟨3, ⟨2, 3, 32, 32⟩, true⟩
    ∧ (run (App.initial examplePage)
        [Action.click ClickTarget.paper, Action.paperWidthChange 20]).sceneChildren = [3]
    ∧ (run (App.initial examplePage)
        [Action.click ClickTarget.paper, Action.paperWidthChange 20]).transformControls = some 1
    ∧ (run (App.initial examplePage)
        [Action.click ClickTarget.paper, Action.paperWidthChange 20]).transformControls
      ≠ (run (App.initial examplePage)
        [Action.click ClickTarget.paper, Action.paperWidthChange 20]).foldedObject.map
          (fun m => m.id) := by
  simp [run, step, onClick, updatePaper, App.initial, updatePaperSize, updateUIFromProjection,
    examplePage, sceneAdd, sceneRemove, CM_TO_UNIT_SCALE]
  norm_num

/-- C12, as stated, fails: in a run that completes from the state after
`init()`, the renderer calls are bind, set clear colour, clear, render, restore
the previous target, set clear colour, read back: the read-back is the last
call, after the previous target (the canvas) is bound again, not before. -/
theorem exportHighResImage_reads_back_after_restore :
    (exportHighResImage Host.ok Renderer.initial ⟨none, false, false⟩ ⟨4, 3, 32, 32⟩
        40 30 300).outcome.isCompleted = true
    ∧ (exportHighResImage Host.ok Renderer.initial ⟨none, false, false⟩ ⟨4, 3, 32, 32⟩
        40 30 300).renderer.calls
      = [GLCall.setRenderTarget (some ⟨4724, 3543⟩), GLCall.setClearColor 0xffffff 1,
         GLCall.clear,
         GLCall.render ⟨4, 3, 32, 32⟩ true ⟨-2, 2, 3 / 2, -3 / 2, 1 / 10, 10, 1⟩,
         GLCall.setRenderTarget none, GLCall.setClearColor 0x282c34 1,
         GLCall.readRenderTargetPixels ⟨4724, 3543⟩ 0 0 4724 3543]
    ∧ (exportHighResImage Host.ok Renderer.initial ⟨none, false, false⟩ ⟨4, 3, 32, 32⟩
        40 30 300).renderer.calls[4]? = some (GLCall.setRenderTarget none)
    ∧ (exportHighResImage Host.ok Renderer.initial ⟨none, false, false⟩ ⟨4, 3, 32, 32⟩
        40 30 300).renderer.calls[6]?
      = some (GLCall.readRenderTargetPixels ⟨4724, 3543⟩ 0 0 4724 3543) := by
  have hc := exportHighResImage_calls_of_completed Host.ok Renderer.initial
    ⟨none, false, false⟩ ⟨4, 3, 32, 32⟩ 40 30 300 rfl rfl
  have hw : mathRound (jsMul (jsDiv 40 INCH_TO_CM) 300) = 4724 := pixels_40_300
  have hh : mathRound (jsMul (jsDiv 30 INCH_TO_CM) 300) = 3543 := pixels_30_300
  rw [hw, hh] at hc
  refine ⟨?_, ?_, ?_, ?_⟩
  · simp [exportHighResImage_completed_iff, Host.ok]
  · rw [hc]
    simp [Renderer.initial]
    norm_num
  · rw [hc]
    simp [Renderer.initial]
  · rw [hc]
    simp [Renderer.initial]

/-- C12, amended: in every run of `exportHighResImage` the calls on the
renderer that bind a target, draw or read pixels occur in the order: bind the
offscreen capture target, render the export scene, bind the previous render
target again, read back the pixels of the capture target. A run that the
render stops has made the first of them, a run that the read-back stops the
first three. The read-back happens after the capture render and after the
previous target is restored. -/
theorem exportHighResImage_call_order (host : Host) (renderer : Renderer)
    (paperMaterial : ShaderMaterial) (geometry : PlaneGeometry) (w h d : ℚ) :
    ∃ made, (exportHighResImage host renderer paperMaterial geometry w h d).renderer.calls
        = renderer.calls ++ made
      ∧ made.filter GLCall.usesTarget
        = if host.renderThrows then
            [GLCall.setRenderTarget (some (exportHighResImage host renderer paperMaterial geometry w h d).renderTarget)]
          else if host.readbackThrows then
            [GLCall.setRenderTarget (some (exportHighResImage host renderer paperMaterial geometry w h d).renderTarget),
             GLCall.render geometry true (exportHighResImage host renderer paperMaterial geometry w h d).exportCamera,
             GLCall.setRenderTarget renderer.renderTarget]
          else
            [GLCall.setRenderTarget (some (exportHighResImage host renderer paperMaterial geometry w h d).renderTarget),
             GLCall.render geometry true (exportHighResImage host renderer paperMaterial geometry w h d).exportCamera,
             GLCall.setRenderTarget renderer.renderTarget,
             GLCall.readRenderTargetPixels (exportHighResImage host renderer paperMaterial geometry w h d).renderTarget 0 0
               (exportHighResImage host renderer paperMaterial geometry w h d).renderTarget.width
               (exportHighResImage host renderer paperMaterial geometry w h d).renderTarget.height] := by
  refine ⟨_, exportHighResImage_calls host renderer paperMaterial geometry w h d, ?_⟩
  rw [exportHighResImage_renderTarget, exportHighResImage_exportCamera]
  split_ifs <;> simp [List.filter, GLCall.usesTarget]

/-- C13 at the failing input: after `init()` and an image load, the height
field is changed to 0 and then the width field to 20; `updatePaper` rejects
both changes, so the flat paper keeps the geometry of the last
`updatePaperSize(40, 30)`, 4 × 3 units. The export then runs on the field
values 20 and 0: a 2362 × 0 target and a camera from -1 to 1 and of height 0
capture a geometry that reaches from -2 to 2 and from -3/2 to 3/2. -/
theorem exportImage_uses_rejected_field_values :
    (run (App.initial examplePage)
        [Action.imageLoaded ⟨640, 480⟩, Action.paperHeightChange 0,
         Action.paperWidthChange 20]).flatPaperObject = some ⟨2, ⟨4, 3, 32, 32⟩, false⟩
    ∧ (run (App.initial examplePage)
        [Action.imageLoaded ⟨640, 480⟩, Action.paperHeightChange 0,
         Action.paperWidthChange 20]).dom.paperWidth = 20
    ∧ (run (App.initial examplePage)
        [Action.imageLoaded ⟨640, 480⟩, Action.paperHeightChange 0,
         Action.paperWidthChange 20]).dom.paperHeight = 0
    ∧ (exportImage ⟨false, false, true⟩ (run (App.initial examplePage)
        [Action.imageLoaded ⟨640, 480⟩, Action.paperHeightChange 0,
         Action.paperWidthChange 20])).renderer.calls
      = [GLCall.setRenderTarget (some ⟨2362, 0⟩), GLCall.setClearColor 0xffffff 1, GLCall.clear,
         GLCall.render ⟨4, 3, 32, 32⟩ true ⟨-1, 1, 0, 0, 1 / 10, 10, 1⟩,
         GLCall.setRenderTarget none, GLCall.setClearColor 0x282c34 1,
         GLCall.readRenderTargetPixels ⟨2362, 0⟩ 0 0 2362 0]
    ∧ (⟨4, 3, 32, 32⟩ : PlaneGeometry).xMax = 2
    ∧ (⟨4, 3, 32, 32⟩ : PlaneGeometry).yMax = 3 / 2 := by
  simp [run, step, updatePaper, exportImage, loadTexture, App.initial, updatePaperSize,
    updateUIFromProjection, examplePage, exportHighResImage, ExportOutcome.notice,
    Renderer.setRenderTarget, Renderer.setClearColor, Renderer.clear,
    Renderer.render, Renderer.readRenderTargetPixels, Renderer.getRenderTarget, pixels_zero,
    pixels_20_300, CM_TO_UNIT_SCALE, PlaneGeometry.xMax, PlaneGeometry.yMax]
  norm_num

end TrickArt
